import Mathlib

/-!
# Chain parameters of `src/kernel/chainparams.cpp`

A shallow embedding of the genesis builder `CreateGenesisBlock` and of the four
network profiles (`CMainParams`, `CTestNetParams`, `SigNetParams`,
`CRegTestParams`), followed by the properties established about them.

Conventions.
* `uint256` values are natural numbers: `uint256S("ab..")` is the hex numeral
  `0xab..`, `uint256{}` and `uint256S("")` are `0`.
* Byte vectors and scripts are lists of bytes.
* A constructor body is a sequence of assignments on the object under
  construction; it is embedded as a function from the object as it is before
  the body runs (`init`) to either the finished object or the `assert` that
  aborted. A run of assignments to distinct members between two `assert`s is
  one record update, its fields in the order of the source.
* What `chainparams.cpp` calls but does not define is either a field of `Env`
  (hash functions, script serialisation, constants of other headers) or a
  definition marked "Modelled from the spec" (default-constructed objects, the
  merkle root, the byte layout of a hash, the decoding of compact bits).
* The `assert`s that compare with a `double` expression are embedded in rational
  arithmetic; `halvingBinary64_eq` and `regtestHalvingBinary64_eq` show that the
  binary64 evaluation of these expressions gives the same numbers.
-/

namespace Umami

/-! ## Primitive data -/

/-- A 256-bit value, as the number its hex string denotes. -/
abbrev uint256 := Nat

/-- A script: its serialised bytes. -/
abbrev CScript := List Nat

/-- An outpoint: transaction hash and output index. -/
structure COutPoint where
  hash : uint256
  n : Nat
deriving DecidableEq, Repr

/-- Modelled from the spec: the default-constructed `COutPoint` (declared in
primitives/transaction.h, outside chainparams.cpp) is the null outpoint,
"no real previous output": hash zero and index `(uint32_t) -1`. -/
def COutPoint.default : COutPoint := { hash := 0, n := 0xffffffff }

/-- Modelled from the spec: `COutPoint::IsNull` (primitives/transaction.h):
the outpoint refers to no previous output. -/
def COutPoint.IsNull (o : COutPoint) : Bool := o.hash == 0 && o.n == 0xffffffff

/-- A transaction input. -/
structure CTxIn where
  prevout : COutPoint
  scriptSig : CScript
  nSequence : Nat
deriving DecidableEq, Repr

/-- Modelled from the spec: the default-constructed `CTxIn`
(primitives/transaction.h): null previous output, empty script, final
sequence number. -/
def CTxIn.default : CTxIn :=
  { prevout := COutPoint.default, scriptSig := [], nSequence := 0xffffffff }

/-- A transaction output. -/
structure CTxOut where
  nValue : Int
  scriptPubKey : CScript
deriving DecidableEq, Repr

/-- Modelled from the spec: the default-constructed `CTxOut`
(primitives/transaction.h): value `-1`, empty script. -/
def CTxOut.default : CTxOut := { nValue := -1, scriptPubKey := [] }

/-- A transaction (`CMutableTransaction`; `MakeTransactionRef` keeps every field). -/
structure CMutableTransaction where
  vin : List CTxIn
  vout : List CTxOut
  nVersion : Int
  nLockTime : Nat
deriving DecidableEq, Repr

/-- Modelled from the spec: the default-constructed `CMutableTransaction`
(primitives/transaction.h): no inputs, no outputs, current version, lock time 0. -/
def CMutableTransaction.default : CMutableTransaction :=
  { vin := [], vout := [], nVersion := 2, nLockTime := 0 }

/-- A block header. -/
structure CBlockHeader where
  nVersion : Int
  hashPrevBlock : uint256
  hashMerkleRoot : uint256
  nTime : Nat
  nBits : Nat
  nNonce : Nat
deriving DecidableEq, Repr

/-- A block: header and transactions. -/
structure CBlock extends CBlockHeader where
  vtx : List CMutableTransaction
deriving DecidableEq, Repr

/-- Modelled from the spec: the default-constructed `CBlock`
(primitives/block.h): `SetNull()` header and an empty transaction list. -/
def CBlock.default : CBlock :=
  { nVersion := 0, hashPrevBlock := 0, hashMerkleRoot := 0, nTime := 0, nBits := 0,
    nNonce := 0, vtx := [] }

/-- The call `v.resize(n)` of `std::vector`: keep the first `n` elements, pad with
default-constructed ones. -/
def resize {α : Type} (d : α) (n : Nat) (v : List α) : List α :=
  v.take n ++ List.replicate (n - v.length) d

/-! ## What the file uses and does not define -/

/-- The collaborators of `chainparams.cpp`: functions and constants it uses that
are defined elsewhere. -/
structure Env where
  /-- The operator `CScript::operator<<(int64_t)`. -/
  pushInt64 : CScript → Int → CScript
  /-- The operator `CScript::operator<<(const CScriptNum&)`, on `CScriptNum(n)`. -/
  pushScriptNum : CScript → Int → CScript
  /-- The operator `CScript::operator<<(const std::vector<unsigned char>&)`. -/
  pushData : CScript → List Nat → CScript
  /-- The operator `CScript::operator<<(opcodetype)`. -/
  pushOpcode : CScript → Nat → CScript
  /-- The opcode `OP_CHECKSIG`. -/
  OP_CHECKSIG : Nat
  /-- The hash of a transaction, `CTransaction::GetHash`. -/
  txHash : CMutableTransaction → uint256
  /-- The hash of two concatenated hashes (inner node of the merkle tree). -/
  Hash2 : uint256 → uint256 → uint256
  /-- The block hash `CBlockHeader::GetHash`. -/
  GetHash : CBlockHeader → uint256
  /-- The proof-of-work hash `CBlockHeader::GetPoWHash`. -/
  GetPoWHash : CBlockHeader → uint256
  /-- The value of `HashWriter h{}; h << v; h.GetHash()` for a byte vector `v`. -/
  HashWriter : List Nat → uint256
  /-- The `CAmount` the floating-point expression `42.94967296 * COIN` converts to. -/
  genesisReward : Int
  /-- The value of the condition `MAX_MONEY == pow(2,30) * COIN`
  (both constants are declared in consensus/amount.h). -/
  maxMoneyAssert : Bool
  /-- The constant `Consensus::BIP9Deployment::NO_TIMEOUT`. -/
  NO_TIMEOUT : Int
  /-- The constant `Consensus::BIP9Deployment::ALWAYS_ACTIVE`. -/
  ALWAYS_ACTIVE : Int
  /-- The constant `Consensus::BIP9Deployment::NEVER_ACTIVE`. -/
  NEVER_ACTIVE : Int
  /-- The flag `SCRIPT_VERIFY_P2SH | SCRIPT_VERIFY_WITNESS`. -/
  SCRIPT_VERIFY_P2SH_WITNESS : Nat
  /-- The array `chainparams_seed_main` of chainparamsseeds.h. -/
  chainparams_seed_main : List Nat
  /-- The array `chainparams_seed_test` of chainparamsseeds.h. -/
  chainparams_seed_test : List Nat

/-! ## Merkle root -/

/-- Modelled from the spec: one level of the merkle tree over a list of hashes
(consensus/merkle.cpp, outside chainparams.cpp): neighbours are hashed in pairs,
the last hash of an odd level is paired with itself. -/
def merkleLevel (H : uint256 → uint256 → uint256) : List uint256 → List uint256
  | [] => []
  | [a] => [H a a]
  | a :: b :: rest => H a b :: merkleLevel H rest

/-- Modelled from the spec: the loop of the merkle-root function: levels are
reduced while more than one hash is left. -/
def ComputeMerkleRootLoop (H : uint256 → uint256 → uint256) : Nat → List uint256 → List uint256
  | 0, hashes => hashes
  | fuel + 1, hashes =>
    if 1 < hashes.length then ComputeMerkleRootLoop H fuel (merkleLevel H hashes) else hashes

/-- Modelled from the spec: the merkle-root function over a list of hashes
(`ComputeMerkleRoot`, consensus/merkle.cpp): the hash left when the levels are
reduced to one, the null hash for an empty list. A list of one hash
"degenerates" to that hash. -/
def ComputeMerkleRoot (H : uint256 → uint256 → uint256) (hashes : List uint256) : uint256 :=
  match ComputeMerkleRootLoop H hashes.length hashes with
  | [] => 0
  | h :: _ => h

/-- Modelled from the spec: the function `BlockMerkleRoot` (consensus/merkle.cpp),
"a merkle-root function over a transaction list": the merkle root of the
hashes of the block's transactions. -/
def BlockMerkleRoot (env : Env) (block : CBlock) : uint256 :=
  ComputeMerkleRoot env.Hash2 (block.vtx.map env.txHash)

/-! ## Genesis builder -/

/-- The function `CreateGenesisBlock` with seven arguments (chainparams.cpp, lines 30-49).
The C string `pszTimestamp` is the list of its bytes before the terminating
NUL, so that `strlen` is its length. The `uint32_t` arguments are natural
numbers, the `int32_t` and `CAmount` arguments integers; the function stores
them unchanged. -/
def CreateGenesisBlock (env : Env) (pszTimestamp : List Nat) (genesisOutputScript : CScript)
    (nTime nNonce nBits : Nat) (nVersion : Int) (genesisReward : Int) : CBlock :=
  let txNew := CMutableTransaction.default
  let txNew := { txNew with nVersion := 1 }
  let txNew := { txNew with vin := resize CTxIn.default 1 txNew.vin }
  let txNew := { txNew with vout := resize CTxOut.default 1 txNew.vout }
  let scriptSig : CScript :=
    env.pushData (env.pushScriptNum (env.pushInt64 [] 486604799) 4)
      (pszTimestamp.take pszTimestamp.length)
  let txNew := { txNew with vin := txNew.vin.modifyHead (fun i => { i with scriptSig := scriptSig }) }
  let txNew := { txNew with vout := txNew.vout.modifyHead (fun o => { o with nValue := genesisReward }) }
  let txNew := { txNew with
    vout := txNew.vout.modifyHead (fun o => { o with scriptPubKey := genesisOutputScript }) }
  let genesis := CBlock.default
  let genesis := { genesis with nTime := nTime }
  let genesis := { genesis with nBits := nBits }
  let genesis := { genesis with nNonce := nNonce }
  let genesis := { genesis with nVersion := nVersion }
  let genesis := { genesis with vtx := genesis.vtx ++ [txNew] }
  let genesis := { genesis with hashPrevBlock := 0 }
  let genesis := { genesis with hashMerkleRoot := BlockMerkleRoot env genesis }
  genesis

/-- The message of the five-argument overload (line 64), as bytes. -/
def pszTimestamp : List Nat :=
  "The Times 17/July/2019 Bitcoin falls after senators call Facebook delusional over libra".toList.map
    Char.toNat

/-- The bytes `ParseHex` yields for the public key of line 65. -/
def genesisPubKey : List Nat :=
  [0x04, 0x67, 0x8a, 0xfd, 0xb0, 0xfe, 0x55, 0x48, 0x27, 0x19, 0x67, 0xf1, 0xa6, 0x71, 0x30, 0xb7,
   0x10, 0x5c, 0xd6, 0xa8, 0x28, 0xe0, 0x39, 0x09, 0xa6, 0x79, 0x62, 0xe0, 0xea, 0x1f, 0x61, 0xde,
   0xb6, 0x49, 0xf6, 0xbc, 0x3f, 0x4c, 0xef, 0x38, 0xc4, 0xf3, 0x55, 0x04, 0xe5, 0x1e, 0xc1, 0x12,
   0xde, 0x5c, 0x38, 0x4d, 0xf7, 0xba, 0x0b, 0x8d, 0x57, 0x8a, 0x4c, 0x70, 0x2b, 0x6b, 0xf1, 0x1d,
   0x5f]

/-- The function `CreateGenesisBlock` with five arguments (lines 62-67). -/
def CreateGenesisBlock5 (env : Env) (nTime nNonce nBits : Nat) (nVersion : Int)
    (genesisReward : Int) : CBlock :=
  let genesisOutputScript := env.pushOpcode (env.pushData [] genesisPubKey) env.OP_CHECKSIG
  CreateGenesisBlock env pszTimestamp genesisOutputScript nTime nNonce nBits nVersion genesisReward

/-! ## Consensus rule table and network profile -/

/-- The time-windowed deployments (`Consensus::DeploymentPos`). -/
inductive DeploymentPos where
  | DEPLOYMENT_TESTDUMMY
  | DEPLOYMENT_TAPROOT
deriving DecidableEq, Repr

/-- The buried deployments (`Consensus::BuriedDeployment`). -/
inductive BuriedDeployment where
  | DEPLOYMENT_HEIGHTINCB
  | DEPLOYMENT_CLTV
  | DEPLOYMENT_DERSIG
  | DEPLOYMENT_CSV
  | DEPLOYMENT_SEGWIT
deriving DecidableEq, Repr

/-- The parameters of one time-windowed deployment (`Consensus::BIP9Deployment`). -/
structure BIP9Deployment where
  bit : Int
  nStartTime : Int
  nTimeout : Int
  min_activation_height : Int
deriving DecidableEq, Repr

/-- The consensus rule table (`Consensus::Params`), with the fields the file assigns. -/
structure Consensus.Params where
  hashGenesisBlock : uint256
  nSubsidyHalvingInterval : Int
  script_flag_exceptions : List (uint256 × Nat)
  BIP34Height : Int
  BIP34Hash : uint256
  BIP65Height : Int
  BIP66Height : Int
  CSVHeight : Int
  SegwitHeight : Int
  MinBIP9WarningHeight : Int
  nRuleChangeActivationThreshold : Nat
  nMinerConfirmationWindow : Nat
  vDeployments : DeploymentPos → BIP9Deployment
  powLimit : uint256
  fPowAllowMinDifficultyBlocks : Bool
  fPowNoRetargeting : Bool
  nPowTargetSpacing : Int
  nPowTargetTimespan : Int
  nPowAveragingWindow : Int
  nPowMaxAdjustDown : Int
  nPowMaxAdjustUp : Int
  nMinimumChainWork : uint256
  defaultAssumeValid : uint256
  signet_blocks : Bool
  signet_challenge : List Nat

/-- The network identifiers `CBaseChainParams::MAIN`, `TESTNET`, `SIGNET`, `REGTEST`. -/
inductive NetworkID where
  | MAIN
  | TESTNET
  | SIGNET
  | REGTEST
deriving DecidableEq, Repr

/-- The purposes of an address prefix (`CChainParams::Base58Type`). -/
inductive Base58Type where
  | PUBKEY_ADDRESS
  | SCRIPT_ADDRESS
  | SECRET_KEY
  | EXT_PUBLIC_KEY
  | EXT_SECRET_KEY
deriving DecidableEq, Repr

/-- The chain-activity summary (`ChainTxData`); the rate is a decimal literal. -/
structure ChainTxData where
  nTime : Int
  nTxCount : Int
  dTxRate : ℚ
deriving DecidableEq

/-- The network profile (`CChainParams`). -/
structure CChainParams where
  consensus : Consensus.Params
  pchMessageStart : List Nat
  nDefaultPort : Nat
  nPruneAfterHeight : Nat
  m_assumed_blockchain_size : Nat
  m_assumed_chain_state_size : Nat
  vSeeds : List String
  base58Prefixes : Base58Type → List Nat
  bech32_hrp : String
  strNetworkID : NetworkID
  genesis : CBlock
  vFixedSeeds : List Nat
  fDefaultConsistencyChecks : Bool
  fRequireStandard : Bool
  m_is_test_chain : Bool
  m_is_mockable_chain : Bool
  checkpointData : List (Int × uint256)
  m_assumeutxo_data : List (Int × uint256 × Nat)
  chainTxData : ChainTxData

/-- The options of the challenge network (`SigNetOptions`). -/
structure SigNetOptions where
  challenge : Option (List Nat)
  seeds : Option (List String)

/-- The timing of one deployment in the regtest options (`VersionBitsParameters`). -/
structure VersionBitsParameters where
  start_time : Int
  timeout : Int
  min_activation_height : Int
deriving DecidableEq, Repr

/-- The options of regtest (`RegTestOptions`). Each `std::unordered_map` is the list
of its entries in iteration order; the keys of a map are pairwise distinct. -/
structure RegTestOptions where
  version_bits_parameters : List (DeploymentPos × VersionBitsParameters)
  activation_heights : List (BuriedDeployment × Int)
  fastprune : Bool

/-- The `assert` that stopped a constructor. -/
inductive AssertFailure where
  | maxMoney
  | halvingInterval
  | targetSpacing
  | ratioConstant
  | ratioWindow
  | ratioHeadroom
  | genesisPoWHash
  | genesisHash
  | genesisMerkleRoot
deriving DecidableEq, Repr

/-- The statement `assert(c)`: go on when `c` holds, abort otherwise. -/
@[nospecialize]
def cassert (c : Prop) [Decidable c] (e : AssertFailure) : Except AssertFailure Unit :=
  if c then .ok () else .error e

/-- The constant `maxUint` (line 70): the largest 256-bit value. -/
def maxUint : Nat := 0xffffffffffffffffffffffffffffffffffffffffffffffffffffffffffffffff

/-- Modelled from the spec: the comparison of the quotient, an `arith_uint256`
(arith_uint256.h), with an `int64_t` such as the averaging-window size: the
integer is converted to the `uint64_t` an `arith_uint256` is built from. -/
def toUint64 (x : Int) : Nat := (x % 2 ^ 64).toNat

/-- Modelled from the spec: "take its first 4 bytes": the bytes `hash.begin()[0..3]`
of a `uint256` (uint256.h), which are the four low-order bytes of the number
its hex string denotes. -/
def first4Bytes (h : uint256) : List Nat :=
  [h % 256, h / 256 % 256, h / 256 ^ 2 % 256, h / 256 ^ 3 % 256]

/-- The call `m.emplace(k, v)` of `std::map`: no effect when the key is present. -/
def emplace (m : List (uint256 × Nat)) (k : uint256) (v : Nat) : List (uint256 × Nat) :=
  if m.any (fun e => e.1 == k) then m else m ++ [(k, v)]

/-- The assignment to members of `vDeployments[pos]`. -/
def setDeployment (v : DeploymentPos → BIP9Deployment) (pos : DeploymentPos)
    (f : BIP9Deployment → BIP9Deployment) : DeploymentPos → BIP9Deployment :=
  Function.update v pos (f (v pos))

/-- The assignment `base58Prefixes[t] = bytes`. -/
def setPrefix (v : Base58Type → List Nat) (t : Base58Type) (bytes : List Nat) :
    Base58Type → List Nat :=
  Function.update v t bytes

/-! ## The four genesis blocks -/

/-- The genesis block of the main network (line 140). -/
def mainGenesis (env : Env) : CBlock :=
  CreateGenesisBlock5 env 1565881200 247 0x1f3fffff 1 env.genesisReward

/-- The genesis block of the test network (line 250). -/
def testGenesis (env : Env) : CBlock :=
  CreateGenesisBlock5 env 1565913601 490 0x1f3fffff 1 env.genesisReward

/-- The genesis block of the challenge network (line 397). -/
def signetGenesis (env : Env) : CBlock :=
  CreateGenesisBlock5 env 1602302400 862 0x1f7fffff 1 env.genesisReward

/-- The genesis block of regtest (line 511). -/
def regtestGenesis (env : Env) : CBlock :=
  CreateGenesisBlock5 env 1565913602 9 0x200f0f0f 1 env.genesisReward

/-! ## Main network -/

/-- The assignments of `CMainParams::CMainParams` before its first `assert` (lines 78-107). -/
def CMainParams.rules (env : Env) (p : CChainParams) : CChainParams :=
  { p with
    strNetworkID := .MAIN
    consensus := { p.consensus with
      signet_blocks := false
      signet_challenge := []
      nSubsidyHalvingInterval := 12500000
      script_flag_exceptions :=
        emplace p.consensus.script_flag_exceptions
          0x0000000000000000000f14c35b2d841e986ab5441de8c585d5ffe55ea1e395ad
          env.SCRIPT_VERIFY_P2SH_WITNESS
      BIP34Height := 17
      BIP34Hash := 0x72e36f3fcdf98d3625dfe03f28a914c513b913231e479d53fc22e5e46cf5b585
      BIP65Height := 0
      BIP66Height := 0
      CSVHeight := 0
      SegwitHeight := 0
      MinBIP9WarningHeight := 12240
      powLimit := 0x003fffffffffffffffffffffffffffffffffffffffffffffffffffffffffffff
      nPowTargetTimespan := 61200
      nPowTargetSpacing := 5
      fPowAllowMinDifficultyBlocks := false
      fPowNoRetargeting := false
      nRuleChangeActivationThreshold := 9180
      nMinerConfirmationWindow := 12240
      vDeployments :=
        setDeployment
          (setDeployment p.consensus.vDeployments .DEPLOYMENT_TESTDUMMY (fun d =>
            { d with
              bit := 28
              nStartTime := env.NEVER_ACTIVE
              nTimeout := env.NO_TIMEOUT
              min_activation_height := 0 }))
          .DEPLOYMENT_TAPROOT (fun d =>
            { d with
              bit := 2
              nStartTime := 1619222400
              nTimeout := 1628640000
              min_activation_height := 709632 }) } }

/-- The assignments of lines 115-117. -/
def CMainParams.shield (p : CChainParams) : CChainParams :=
  { p with
    consensus := { p.consensus with
      nPowAveragingWindow := 510
      nPowMaxAdjustDown := 32
      nPowMaxAdjustUp := 16 } }

/-- The assignments of lines 123-140. -/
def CMainParams.identity (env : Env) (p : CChainParams) : CChainParams :=
  { p with
    consensus := { p.consensus with
      nMinimumChainWork := 0x00000000000000000000000000000000000000000000000000003f23ef34da28
      defaultAssumeValid := 0x855f0c66238bc0246c8ca25cf958283fd49b9fb4b217ddeb518e5ea9f5071b9e }
    pchMessageStart := [0x9f, 0xeb, 0x4b, 0x9d]
    nDefaultPort := 34230
    nPruneAfterHeight := 100000
    m_assumed_blockchain_size := 6
    m_assumed_chain_state_size := 1
    genesis := mainGenesis env }

/-- The assignment of line 141. -/
def setHashGenesisBlock (env : Env) (p : CChainParams) : CChainParams :=
  { p with consensus := { p.consensus with hashGenesisBlock := env.GetHash p.genesis.toCBlockHeader } }

/-- The assignments of lines 152-186. -/
def CMainParams.bootstrap (env : Env) (p : CChainParams) : CChainParams :=
  { p with
    vSeeds := p.vSeeds ++ ["1seed.sugarchain.info"] ++ ["2seed.sugarchain.info"]
      ++ ["seed.sugarchain.site"]
    base58Prefixes :=
      setPrefix (setPrefix (setPrefix (setPrefix (setPrefix p.base58Prefixes
        .PUBKEY_ADDRESS (List.replicate 1 63))
        .SCRIPT_ADDRESS (List.replicate 1 125))
        .SECRET_KEY (List.replicate 1 128))
        .EXT_PUBLIC_KEY [0x04, 0x88, 0xB2, 0x1E])
        .EXT_SECRET_KEY [0x04, 0x88, 0xAD, 0xE4]
    bech32_hrp := "sugar"
    vFixedSeeds := env.chainparams_seed_main
    fDefaultConsistencyChecks := false
    fRequireStandard := true
    m_is_test_chain := false
    m_is_mockable_chain := false
    checkpointData := [(0, 0x7d5eaec2dbb75f99feadfa524c78b7cabc1d8c8204f79d4f3a83381b811b0adc)]
    m_assumeutxo_data := []
    chainTxData := { nTime := 1599181736, nTxCount := 6858263, dTxRate := 0.2053689306146399 } }

/-- The constructor `CMainParams::CMainParams` (lines 77-187). -/
def CMainParams (env : Env) (init : CChainParams) : Except AssertFailure CChainParams := do
  let p := CMainParams.rules env init
  cassert (env.maxMoneyAssert = true) .maxMoney
  cassert ((p.consensus.nSubsidyHalvingInterval : ℚ) = 5 ^ 8 * 32) .halvingInterval
  cassert (p.consensus.nPowTargetSpacing = 10 * 60 / 120) .targetSpacing
  let p := CMainParams.shield p
  cassert (maxUint / p.consensus.powLimit = 1024) .ratioConstant
  cassert (maxUint / p.consensus.powLimit ≥ toUint64 p.consensus.nPowAveragingWindow) .ratioWindow
  cassert (maxUint / p.consensus.powLimit = toUint64 (p.consensus.nPowAveragingWindow + 514))
    .ratioHeadroom
  let p := CMainParams.identity env p
  let p := setHashGenesisBlock env p
  cassert (env.GetPoWHash p.genesis.toCBlockHeader =
    0x0031205acedcc69a9c18f79b84790179d68fb90588bedee6587ff701bdde04eb) .genesisPoWHash
  cassert (p.consensus.hashGenesisBlock =
    0x7d5eaec2dbb75f99feadfa524c78b7cabc1d8c8204f79d4f3a83381b811b0adc) .genesisHash
  cassert (p.genesis.hashMerkleRoot =
    0x7677ce2a579cb0411d1c9e6b1e9072b8f537f1e59cb387dacac2daac56e150b0) .genesisMerkleRoot
  let p := CMainParams.bootstrap env p
  return p

/-! ## Test network -/

/-- The assignments of `CTestNetParams::CTestNetParams` before its first `assert`
(lines 196-223). -/
def CTestNetParams.rules (env : Env) (p : CChainParams) : CChainParams :=
  { p with
    strNetworkID := .TESTNET
    consensus := { p.consensus with
      signet_blocks := false
      signet_challenge := []
      nSubsidyHalvingInterval := 12500000
      BIP34Height := 17
      BIP34Hash := 0xc7c210c9267ebc195100c71691336c7048cbdd37761b4bd20c9b1f32caf4fb9c
      BIP65Height := 0
      BIP66Height := 0
      CSVHeight := 0
      SegwitHeight := 0
      MinBIP9WarningHeight := 12240
      powLimit := 0x003fffffffffffffffffffffffffffffffffffffffffffffffffffffffffffff
      nPowTargetTimespan := 61200
      nPowTargetSpacing := 5
      fPowAllowMinDifficultyBlocks := false
      fPowNoRetargeting := false
      nRuleChangeActivationThreshold := 9180
      nMinerConfirmationWindow := 12240
      vDeployments :=
        setDeployment
          (setDeployment p.consensus.vDeployments .DEPLOYMENT_TESTDUMMY (fun d =>
            { d with
              bit := 28
              nStartTime := env.NEVER_ACTIVE
              nTimeout := env.NO_TIMEOUT
              min_activation_height := 0 }))
          .DEPLOYMENT_TAPROOT (fun d =>
            { d with
              bit := 2
              nStartTime := 1619222400
              nTimeout := 1628640000
              min_activation_height := 0 }) } }

/-- The assignments of lines 231-232. -/
def CTestNetParams.shield (p : CChainParams) : CChainParams :=
  { p with
    consensus := { p.consensus with
      nPowAveragingWindow := 510
      nPowMaxAdjustDown := 32 } }

/-- The assignments of lines 238-250. -/
def CTestNetParams.identity (env : Env) (p : CChainParams) : CChainParams :=
  { p with
    consensus := { p.consensus with
      nMinimumChainWork := 0x000000000000000000000000000000000000000000000000000000014d9bf048
      defaultAssumeValid := 0xbc05c2d5e81785f287cd58a798b64467cff35c8ef2bbe8062d8420eeb86f4056 }
    pchMessageStart := [0xb0, 0x11, 0x90, 0x70]
    nDefaultPort := 44230
    nPruneAfterHeight := 1000
    m_assumed_blockchain_size := 1
    m_assumed_chain_state_size := 1
    genesis := testGenesis env }

/-- The assignments of lines 257-292; `vFixedSeeds` is cleared at line 257 and
assigned at line 270, `vSeeds` is cleared at line 258 and extended at line 260. -/
def CTestNetParams.bootstrap (env : Env) (p : CChainParams) : CChainParams :=
  { p with
    vSeeds := [] ++ ["1seed-testnet.cryptozeny.com"]
    base58Prefixes :=
      setPrefix (setPrefix (setPrefix (setPrefix (setPrefix p.base58Prefixes
        .PUBKEY_ADDRESS (List.replicate 1 66))
        .SCRIPT_ADDRESS (List.replicate 1 128))
        .SECRET_KEY (List.replicate 1 239))
        .EXT_PUBLIC_KEY [0x04, 0x35, 0x87, 0xCF])
        .EXT_SECRET_KEY [0x04, 0x35, 0x83, 0x94]
    bech32_hrp := "tugar"
    vFixedSeeds := env.chainparams_seed_test
    fDefaultConsistencyChecks := false
    fRequireStandard := false
    m_is_test_chain := true
    m_is_mockable_chain := false
    checkpointData := [(0, 0xe0e0e42e493ba7b15f7b0fe1a7e66f73b7fd8b3e6e6a7b0e821a6b95040d3826)]
    m_assumeutxo_data := []
    chainTxData := { nTime := 1598648664, nTxCount := 4033793, dTxRate := 0.1692345821801809 } }

/-- The constructor `CTestNetParams::CTestNetParams` (lines 195-293). -/
def CTestNetParams (env : Env) (init : CChainParams) : Except AssertFailure CChainParams := do
  let p := CTestNetParams.rules env init
  cassert (env.maxMoneyAssert = true) .maxMoney
  cassert ((p.consensus.nSubsidyHalvingInterval : ℚ) = 5 ^ 8 * 32) .halvingInterval
  cassert (p.consensus.nPowTargetSpacing = 10 * 60 / 120) .targetSpacing
  let p := CTestNetParams.shield p
  cassert (maxUint / p.consensus.powLimit = 1024) .ratioConstant
  cassert (maxUint / p.consensus.powLimit ≥ toUint64 p.consensus.nPowAveragingWindow) .ratioWindow
  cassert (maxUint / p.consensus.powLimit = toUint64 (p.consensus.nPowAveragingWindow + 514))
    .ratioHeadroom
  let p := CTestNetParams.identity env p
  let p := setHashGenesisBlock env p
  cassert (env.GetPoWHash p.genesis.toCBlockHeader =
    0x0032f49a73e00fc182e08d5ede75c1418c7833092d663e43a5463c1dbd096f28) .genesisPoWHash
  cassert (p.consensus.hashGenesisBlock =
    0xe0e0e42e493ba7b15f7b0fe1a7e66f73b7fd8b3e6e6a7b0e821a6b95040d3826) .genesisHash
  cassert (p.genesis.hashMerkleRoot =
    0x7677ce2a579cb0411d1c9e6b1e9072b8f537f1e59cb387dacac2daac56e150b0) .genesisMerkleRoot
  let p := CTestNetParams.bootstrap env p
  return p

/-! ## Challenge network (signet) -/

/-- The bytes `ParseHex` yields for the default challenge of line 307. -/
def defaultSignetChallenge : List Nat :=
  [0x51, 0x21, 0x03, 0xad, 0x5e, 0x0e, 0xda, 0xd1, 0x8c, 0xb1, 0xf0, 0xfc, 0x0d, 0x28, 0xa3, 0xd4,
   0xf1, 0xf3, 0xe4, 0x45, 0x64, 0x03, 0x37, 0x48, 0x9a, 0xbb, 0x10, 0x40, 0x4f, 0x2d, 0x1e, 0x08,
   0x6b, 0xe4, 0x30, 0x21, 0x03, 0x59, 0xef, 0x50, 0x21, 0x96, 0x4f, 0xe2, 0x2d, 0x6f, 0x8e, 0x05,
   0xb2, 0x46, 0x3c, 0x95, 0x40, 0xce, 0x96, 0x88, 0x3f, 0xe3, 0xb2, 0x78, 0x76, 0x0f, 0x04, 0x8f,
   0x51, 0x89, 0xf2, 0xe6, 0xc4, 0x52, 0xae]

/-- The assignments of the branch without a challenge (lines 317-326). -/
def SigNetParams.notLaunched (p : CChainParams) : CChainParams :=
  { p with
    consensus := { p.consensus with
      nMinimumChainWork := 0
      defaultAssumeValid := 0 }
    m_assumed_blockchain_size := 0
    m_assumed_chain_state_size := 0
    chainTxData := { nTime := 0, nTxCount := 0, dTxRate := 0 } }

/-- The assignments of the branch with a challenge (lines 329-337); the log line
338 changes nothing of the object. -/
def SigNetParams.clean (p : CChainParams) : CChainParams :=
  { p with
    consensus := { p.consensus with
      nMinimumChainWork := 0
      defaultAssumeValid := 0 }
    m_assumed_blockchain_size := 0
    m_assumed_chain_state_size := 0
    chainTxData := { nTime := 0, nTxCount := 0, dTxRate := 0 } }

/-- The assignments of lines 345-372; `bin` is the challenge chosen above. -/
def SigNetParams.rules (env : Env) (bin : List Nat) (p : CChainParams) : CChainParams :=
  { p with
    strNetworkID := .SIGNET
    consensus := { p.consensus with
      signet_blocks := true
      signet_challenge := bin
      nSubsidyHalvingInterval := 12500000
      BIP34Height := 1
      BIP34Hash := 0
      BIP65Height := 1
      BIP66Height := 1
      CSVHeight := 1
      SegwitHeight := 1
      nPowTargetTimespan := 61200
      nPowTargetSpacing := 5
      fPowAllowMinDifficultyBlocks := false
      fPowNoRetargeting := false
      nRuleChangeActivationThreshold := 9180
      nMinerConfirmationWindow := 12240
      MinBIP9WarningHeight := 0
      powLimit := 0x7fffffffffffffffffffffffffffffffffffffffffffffffffffffffffffff
      vDeployments :=
        setDeployment
          (setDeployment p.consensus.vDeployments .DEPLOYMENT_TESTDUMMY (fun d =>
            { d with
              bit := 28
              nStartTime := env.NEVER_ACTIVE
              nTimeout := env.NO_TIMEOUT
              min_activation_height := 0 }))
          .DEPLOYMENT_TAPROOT (fun d =>
            { d with
              bit := 2
              nStartTime := env.ALWAYS_ACTIVE
              nTimeout := env.NO_TIMEOUT
              min_activation_height := 0 }) } }

/-- The assignments of lines 380-382. -/
def SigNetParams.shield (p : CChainParams) : CChainParams :=
  { p with
    consensus := { p.consensus with
      nPowAveragingWindow := 510
      nPowMaxAdjustDown := 32
      nPowMaxAdjustUp := 16 } }

/-- The assignments of lines 389-397: the message start is the first four bytes of
the hash of the recorded challenge. -/
def SigNetParams.identity (env : Env) (p : CChainParams) : CChainParams :=
  { p with
    pchMessageStart := first4Bytes (env.HashWriter p.consensus.signet_challenge)
    nDefaultPort := 54230
    nPruneAfterHeight := 1000
    genesis := signetGenesis env }

/-- The assignments of lines 404-417. -/
def SigNetParams.bootstrap (p : CChainParams) : CChainParams :=
  { p with
    vFixedSeeds := []
    base58Prefixes :=
      setPrefix (setPrefix (setPrefix (setPrefix (setPrefix p.base58Prefixes
        .PUBKEY_ADDRESS (List.replicate 1 66))
        .SCRIPT_ADDRESS (List.replicate 1 128))
        .SECRET_KEY (List.replicate 1 239))
        .EXT_PUBLIC_KEY [0x04, 0x35, 0x87, 0xCF])
        .EXT_SECRET_KEY [0x04, 0x35, 0x83, 0x94]
    bech32_hrp := "tugar"
    fDefaultConsistencyChecks := false
    fRequireStandard := true
    m_is_test_chain := true
    m_is_mockable_chain := false }

/-- The constructor `SigNetParams::SigNetParams` (lines 301-418). -/
def SigNetParams (env : Env) (options : SigNetOptions) (init : CChainParams) :
    Except AssertFailure CChainParams := do
  let p := { init with vSeeds := [] }
  let chosen : List Nat × CChainParams :=
    match options.challenge with
    | none => (defaultSignetChallenge, SigNetParams.notLaunched p)
    | some challenge => (challenge, SigNetParams.clean p)
  let bin := chosen.1
  let p := chosen.2
  let p :=
    match options.seeds with
    | some seeds => { p with vSeeds := seeds }
    | none => p
  let p := SigNetParams.rules env bin p
  cassert (env.maxMoneyAssert = true) .maxMoney
  cassert ((p.consensus.nSubsidyHalvingInterval : ℚ) = 5 ^ 8 * 32) .halvingInterval
  cassert (p.consensus.nPowTargetSpacing = 10 * 60 / 120) .targetSpacing
  let p := SigNetParams.shield p
  cassert (maxUint / p.consensus.powLimit = 512) .ratioConstant
  cassert (maxUint / p.consensus.powLimit ≥ toUint64 p.consensus.nPowAveragingWindow) .ratioWindow
  cassert (maxUint / p.consensus.powLimit = toUint64 (p.consensus.nPowAveragingWindow + 2))
    .ratioHeadroom
  let p := SigNetParams.identity env p
  let p := setHashGenesisBlock env p
  cassert (env.GetPoWHash p.genesis.toCBlockHeader =
    0x0011df7a28e271dc914cc43b498c0f7107bd549e0d6630055f7c10bb0471bc6b) .genesisPoWHash
  cassert (p.consensus.hashGenesisBlock =
    0x223231facc4c2337baedba62921cf0ada7f867a869194ce9b3697eefd9d54c59) .genesisHash
  cassert (p.genesis.hashMerkleRoot =
    0x7677ce2a579cb0411d1c9e6b1e9072b8f537f1e59cb387dacac2daac56e150b0) .genesisMerkleRoot
  let p := SigNetParams.bootstrap p
  return p

/-! ## Regression test network -/

/-- The assignments of `CRegTestParams::CRegTestParams` before its first `assert`
(lines 430-457). -/
def CRegTestParams.rules (env : Env) (p : CChainParams) : CChainParams :=
  { p with
    strNetworkID := .REGTEST
    consensus := { p.consensus with
      signet_blocks := false
      signet_challenge := []
      nSubsidyHalvingInterval := 150
      BIP34Height := 1
      BIP34Hash := 0
      BIP65Height := 1
      BIP66Height := 1
      CSVHeight := 1
      SegwitHeight := 0
      MinBIP9WarningHeight := 0
      powLimit := 0x0f0f0f0f0f0f0f0f0f0f0f0f0f0f0f0f0f0f0f0f0f0f0f0f0f0f0f0f0f0f0f0f
      nPowTargetTimespan := 61200
      nPowTargetSpacing := 5
      fPowAllowMinDifficultyBlocks := true
      fPowNoRetargeting := true
      nRuleChangeActivationThreshold := 108
      nMinerConfirmationWindow := 144
      vDeployments :=
        setDeployment
          (setDeployment p.consensus.vDeployments .DEPLOYMENT_TESTDUMMY (fun d =>
            { d with
              bit := 28
              nStartTime := 0
              nTimeout := env.NO_TIMEOUT
              min_activation_height := 0 }))
          .DEPLOYMENT_TAPROOT (fun d =>
            { d with
              bit := 2
              nStartTime := env.ALWAYS_ACTIVE
              nTimeout := env.NO_TIMEOUT
              min_activation_height := 0 }) } }

/-- The assignments of lines 465-467. -/
def CRegTestParams.shield (p : CChainParams) : CChainParams :=
  { p with
    consensus := { p.consensus with
      nPowAveragingWindow := 17
      nPowMaxAdjustDown := 0
      nPowMaxAdjustUp := 0 } }

/-- The assignments of lines 473-483. -/
def CRegTestParams.identity (opts : RegTestOptions) (p : CChainParams) : CChainParams :=
  { p with
    consensus := { p.consensus with
      nMinimumChainWork := 0
      defaultAssumeValid := 0 }
    pchMessageStart := [0xaf, 0xfb, 0x5b, 0xad]
    nDefaultPort := 45340
    nPruneAfterHeight := if opts.fastprune then 100 else 1000
    m_assumed_blockchain_size := 0
    m_assumed_chain_state_size := 0 }

/-- The body of the loop of lines 485-503: the `switch` on the buried deployment. -/
def CRegTestParams.setActivationHeight (p : CChainParams) (dep : BuriedDeployment)
    (height : Int) : CChainParams :=
  match dep with
  | .DEPLOYMENT_SEGWIT => { p with consensus := { p.consensus with SegwitHeight := height } }
  | .DEPLOYMENT_HEIGHTINCB => { p with consensus := { p.consensus with BIP34Height := height } }
  | .DEPLOYMENT_DERSIG => { p with consensus := { p.consensus with BIP66Height := height } }
  | .DEPLOYMENT_CLTV => { p with consensus := { p.consensus with BIP65Height := height } }
  | .DEPLOYMENT_CSV => { p with consensus := { p.consensus with CSVHeight := height } }

/-- The body of the loop of lines 505-509. -/
def CRegTestParams.setVersionBits (p : CChainParams) (deployment_pos : DeploymentPos)
    (version_bits_params : VersionBitsParameters) : CChainParams :=
  { p with
    consensus := { p.consensus with
      vDeployments :=
        setDeployment p.consensus.vDeployments deployment_pos (fun d =>
          { d with
            nStartTime := version_bits_params.start_time
            nTimeout := version_bits_params.timeout
            min_activation_height := version_bits_params.min_activation_height }) } }

/-- The two loops of lines 485-509, over the entries of the two maps. -/
def CRegTestParams.overrides (opts : RegTestOptions) (p : CChainParams) : CChainParams :=
  let p := opts.activation_heights.foldl
    (fun p entry => CRegTestParams.setActivationHeight p entry.1 entry.2) p
  let p := opts.version_bits_parameters.foldl
    (fun p entry => CRegTestParams.setVersionBits p entry.1 entry.2) p
  p

/-- The assignments of lines 518-556; `vSeeds` is cleared at line 519 and extended
at line 520. -/
def CRegTestParams.bootstrap (p : CChainParams) : CChainParams :=
  { p with
    vFixedSeeds := []
    vSeeds := [] ++ ["dummySeed.invalid."]
    fDefaultConsistencyChecks := true
    fRequireStandard := true
    m_is_test_chain := true
    m_is_mockable_chain := true
    checkpointData := [(0, 0xd567a9c891c7a47e6dd03f8006cb65b0d6406b5dc7b2c86d7a904815c394e1f1)]
    m_assumeutxo_data :=
      [(110, 0x1ebbf5850204c0bdb15bf030f47c7fe91d45c44c712697e4509ba67adb01c618, 110),
       (200, 0x51c8d11d8b5c1de51543c579736e786aa2736206d1e11e627568029ce092cf62, 200)]
    chainTxData := { nTime := 0, nTxCount := 0, dTxRate := 0 }
    base58Prefixes :=
      setPrefix (setPrefix (setPrefix (setPrefix (setPrefix p.base58Prefixes
        .PUBKEY_ADDRESS (List.replicate 1 61))
        .SCRIPT_ADDRESS (List.replicate 1 123))
        .SECRET_KEY (List.replicate 1 239))
        .EXT_PUBLIC_KEY [0x04, 0x35, 0x87, 0xCF])
        .EXT_SECRET_KEY [0x04, 0x35, 0x83, 0x94]
    bech32_hrp := "rugar" }

/-- The constructor `CRegTestParams::CRegTestParams` (lines 428-557). -/
def CRegTestParams (env : Env) (opts : RegTestOptions) (init : CChainParams) :
    Except AssertFailure CChainParams := do
  let p := CRegTestParams.rules env init
  cassert (env.maxMoneyAssert = true) .maxMoney
  cassert ((p.consensus.nSubsidyHalvingInterval : ℚ) = 5 ^ 8 * 32 / 1000 * 0.012) .halvingInterval
  cassert (p.consensus.nPowTargetSpacing = 10 * 60 / 120) .targetSpacing
  let p := CRegTestParams.shield p
  cassert (maxUint / p.consensus.powLimit = 17) .ratioConstant
  cassert (maxUint / p.consensus.powLimit ≥ toUint64 p.consensus.nPowAveragingWindow) .ratioWindow
  cassert (maxUint / p.consensus.powLimit = toUint64 (p.consensus.nPowAveragingWindow + 0))
    .ratioHeadroom
  let p := CRegTestParams.identity opts p
  let p := CRegTestParams.overrides opts p
  let p := { p with genesis := regtestGenesis env }
  let p := setHashGenesisBlock env p
  cassert (env.GetPoWHash p.genesis.toCBlockHeader =
    0x0d144c097fa9c4cf7482fde74f95da8045b516490741af0ee9b1ac1f1dd6c914) .genesisPoWHash
  cassert (p.consensus.hashGenesisBlock =
    0xd567a9c891c7a47e6dd03f8006cb65b0d6406b5dc7b2c86d7a904815c394e1f1) .genesisHash
  cassert (p.genesis.hashMerkleRoot =
    0x7677ce2a579cb0411d1c9e6b1e9072b8f537f1e59cb387dacac2daac56e150b0) .genesisMerkleRoot
  let p := CRegTestParams.bootstrap p
  return p

/-- The factory `CChainParams::SigNet` (lines 560-563). -/
def CChainParams.SigNet (env : Env) (options : SigNetOptions) (init : CChainParams) :
    Except AssertFailure CChainParams :=
  SigNetParams env options init

/-- The factory `CChainParams::RegTest` (lines 565-568). -/
def CChainParams.RegTest (env : Env) (options : RegTestOptions) (init : CChainParams) :
    Except AssertFailure CChainParams :=
  CRegTestParams env options init

/-- The factory `CChainParams::Main` (lines 570-573). -/
def CChainParams.Main (env : Env) (init : CChainParams) : Except AssertFailure CChainParams :=
  CMainParams env init

/-- The factory `CChainParams::TestNet` (lines 575-578). -/
def CChainParams.TestNet (env : Env) (init : CChainParams) : Except AssertFailure CChainParams :=
  CTestNetParams env init

/-! ## Vocabulary of the statements -/

/-- The object `CMainParams` returns when every `assert` passes. -/
def CMainParams.result (env : Env) (init : CChainParams) : CChainParams :=
  CMainParams.bootstrap env (setHashGenesisBlock env (CMainParams.identity env
    (CMainParams.shield (CMainParams.rules env init))))

/-- The object `CTestNetParams` returns when every `assert` passes. -/
def CTestNetParams.result (env : Env) (init : CChainParams) : CChainParams :=
  CTestNetParams.bootstrap env (setHashGenesisBlock env (CTestNetParams.identity env
    (CTestNetParams.shield (CTestNetParams.rules env init))))

/-- The object `SigNetParams` returns when every `assert` passes. -/
def SigNetParams.result (env : Env) (options : SigNetOptions) (init : CChainParams) :
    CChainParams :=
  let p := { init with vSeeds := [] }
  let chosen : List Nat × CChainParams :=
    match options.challenge with
    | none => (defaultSignetChallenge, SigNetParams.notLaunched p)
    | some challenge => (challenge, SigNetParams.clean p)
  let p :=
    match options.seeds with
    | some seeds => { chosen.2 with vSeeds := seeds }
    | none => chosen.2
  SigNetParams.bootstrap (setHashGenesisBlock env (SigNetParams.identity env
    (SigNetParams.shield (SigNetParams.rules env chosen.1 p))))

/-- The object `CRegTestParams` returns when every `assert` passes. -/
def CRegTestParams.result (env : Env) (opts : RegTestOptions) (init : CChainParams) :
    CChainParams :=
  let p := CRegTestParams.overrides opts (CRegTestParams.identity opts
    (CRegTestParams.shield (CRegTestParams.rules env init)))
  CRegTestParams.bootstrap (setHashGenesisBlock env { p with genesis := regtestGenesis env })

/-- The challenge the challenge network runs with: the explicit one when the
options carry one, the default of line 307 otherwise. -/
def effectiveChallenge (options : SigNetOptions) : List Nat :=
  match options.challenge with
  | some challenge => challenge
  | none => defaultSignetChallenge

/-- Modelled from the spec: the height the rule table reports for a buried
deployment (`Consensus::Params::DeploymentHeight`, consensus/params.h): the
member the `switch` of lines 486-502 assigns for it. -/
def Consensus.Params.DeploymentHeight (c : Consensus.Params) : BuriedDeployment → Int
  | .DEPLOYMENT_HEIGHTINCB => c.BIP34Height
  | .DEPLOYMENT_CLTV => c.BIP65Height
  | .DEPLOYMENT_DERSIG => c.BIP66Height
  | .DEPLOYMENT_CSV => c.CSVHeight
  | .DEPLOYMENT_SEGWIT => c.SegwitHeight

/-- The heights regtest assigns to the buried deployments before the overrides
(lines 434-439): 0 for segwit, 1 for each of the others. -/
def regtestDefaultHeight : BuriedDeployment → Int
  | .DEPLOYMENT_SEGWIT => 0
  | .DEPLOYMENT_HEIGHTINCB => 1
  | .DEPLOYMENT_CLTV => 1
  | .DEPLOYMENT_DERSIG => 1
  | .DEPLOYMENT_CSV => 1

/-- The deployment parameters regtest assigns before the overrides (lines 449-457). -/
def regtestDefaultDeployment (env : Env) : DeploymentPos → BIP9Deployment
  | .DEPLOYMENT_TESTDUMMY =>
    { bit := 28, nStartTime := 0, nTimeout := env.NO_TIMEOUT, min_activation_height := 0 }
  | .DEPLOYMENT_TAPROOT =>
    { bit := 2, nStartTime := env.ALWAYS_ACTIVE, nTimeout := env.NO_TIMEOUT,
      min_activation_height := 0 }

/-- The facts the three ratio `assert`s check on a rule table: the quotient of
`maxUint` by the proof-of-work ceiling is `constant`, the averaging window is
`window`, the quotient is at least the window and is the window plus `headroom`. -/
def RatioFacts (c : Consensus.Params) (constant : Nat) (window headroom : Int) : Prop :=
  maxUint / c.powLimit = constant ∧
  c.nPowAveragingWindow = window ∧
  ((maxUint / c.powLimit : Nat) : Int) ≥ c.nPowAveragingWindow ∧
  ((maxUint / c.powLimit : Nat) : Int) = c.nPowAveragingWindow + headroom

/-- The three `assert`s on the ratio `maxUint / powLimit`. -/
def AssertFailure.isRatio : AssertFailure → Bool
  | .ratioConstant => true
  | .ratioWindow => true
  | .ratioHeadroom => true
  | _ => false

/-- A construction was stopped by one of the three ratio `assert`s. -/
def abortedOnRatio (r : Except AssertFailure CChainParams) : Bool :=
  match r with
  | .error e => e.isRatio
  | .ok _ => false

/-- The checks of `CMainParams` that depend on the collaborators all pass: the
monetary-cap `assert` and the three pinned genesis values (lines 110, 143-145). -/
def MainChecksPass (env : Env) : Prop :=
  env.maxMoneyAssert = true ∧
  env.GetPoWHash (mainGenesis env).toCBlockHeader =
    0x0031205acedcc69a9c18f79b84790179d68fb90588bedee6587ff701bdde04eb ∧
  env.GetHash (mainGenesis env).toCBlockHeader =
    0x7d5eaec2dbb75f99feadfa524c78b7cabc1d8c8204f79d4f3a83381b811b0adc ∧
  (mainGenesis env).hashMerkleRoot =
    0x7677ce2a579cb0411d1c9e6b1e9072b8f537f1e59cb387dacac2daac56e150b0

/-- The checks of `CTestNetParams` that depend on the collaborators all pass
(lines 226, 253-255). -/
def TestChecksPass (env : Env) : Prop :=
  env.maxMoneyAssert = true ∧
  env.GetPoWHash (testGenesis env).toCBlockHeader =
    0x0032f49a73e00fc182e08d5ede75c1418c7833092d663e43a5463c1dbd096f28 ∧
  env.GetHash (testGenesis env).toCBlockHeader =
    0xe0e0e42e493ba7b15f7b0fe1a7e66f73b7fd8b3e6e6a7b0e821a6b95040d3826 ∧
  (testGenesis env).hashMerkleRoot =
    0x7677ce2a579cb0411d1c9e6b1e9072b8f537f1e59cb387dacac2daac56e150b0

/-- The checks of `SigNetParams` that depend on the collaborators all pass
(lines 375, 400-402). -/
def SigNetChecksPass (env : Env) : Prop :=
  env.maxMoneyAssert = true ∧
  env.GetPoWHash (signetGenesis env).toCBlockHeader =
    0x0011df7a28e271dc914cc43b498c0f7107bd549e0d6630055f7c10bb0471bc6b ∧
  env.GetHash (signetGenesis env).toCBlockHeader =
    0x223231facc4c2337baedba62921cf0ada7f867a869194ce9b3697eefd9d54c59 ∧
  (signetGenesis env).hashMerkleRoot =
    0x7677ce2a579cb0411d1c9e6b1e9072b8f537f1e59cb387dacac2daac56e150b0

/-- The checks of `CRegTestParams` that depend on the collaborators all pass
(lines 460, 514-516). -/
def RegTestChecksPass (env : Env) : Prop :=
  env.maxMoneyAssert = true ∧
  env.GetPoWHash (regtestGenesis env).toCBlockHeader =
    0x0d144c097fa9c4cf7482fde74f95da8045b516490741af0ee9b1ac1f1dd6c914 ∧
  env.GetHash (regtestGenesis env).toCBlockHeader =
    0xd567a9c891c7a47e6dd03f8006cb65b0d6406b5dc7b2c86d7a904815c394e1f1 ∧
  (regtestGenesis env).hashMerkleRoot =
    0x7677ce2a579cb0411d1c9e6b1e9072b8f537f1e59cb387dacac2daac56e150b0

/-- Modelled from the spec: the object a constructor body starts from is
default-constructed (`CChainParams`, kernel/chainparams.h): its checkpoint map, a
`std::map`, is empty. -/
def FreshCheckpoints (init : CChainParams) : Prop :=
  init.checkpointData = []

/-- The invariant of the checkpoint list of a profile: the heights strictly
increase, and a checkpoint at height 0 carries the profile's own genesis hash. -/
def CheckpointsConsistent (p : CChainParams) : Prop :=
  (p.checkpointData.map Prod.fst).Pairwise (fun a b => a < b) ∧
  ∀ hash : uint256, ((0 : Int), hash) ∈ p.checkpointData → hash = p.consensus.hashGenesisBlock

/-- The facts the `assert`s on the constants of a rule table check (lines 111-112,
461-462): the subsidy halving interval is `halving` and equals `formula` in
rational arithmetic, the target spacing is 5 and equals `10 * 60 / 120`. -/
def ConstantFacts (c : Consensus.Params) (halving : Int) (formula : ℚ) : Prop :=
  c.nSubsidyHalvingInterval = halving ∧
  (c.nSubsidyHalvingInterval : ℚ) = formula ∧
  c.nPowTargetSpacing = 5 ∧
  c.nPowTargetSpacing = 10 * 60 / 120

/-- The two `assert`s on constants of the rule table. -/
def AssertFailure.isConstant : AssertFailure → Bool
  | .halvingInterval => true
  | .targetSpacing => true
  | _ => false

/-- A construction was stopped by one of the two `assert`s on constants of the rule table. -/
def abortedOnConstant (r : Except AssertFailure CChainParams) : Bool :=
  match r with
  | .error e => e.isConstant
  | .ok _ => false

/-- The binary64 value nearest to a positive rational (IEEE 754 round to nearest,
ties to even; normal range, no overflow): the result of one `double` operation
whose exact result is `q`. -/
def roundBinary64 (q : ℚ) : ℚ :=
  let ulp : ℚ := 2 ^ (Int.log 2 q - 52)
  let m : ℚ := q / ulp
  let f : Int := ⌊m⌋
  let n : Int :=
    if m - f < 1 / 2 then f
    else if 1 / 2 < m - f then f + 1
    else if f % 2 = 0 then f else f + 1
  n * ulp

/-- The value of `pow(5,8) * 32` (lines 111, 227, 376) in `double` arithmetic. -/
def halvingBinary64 : ℚ :=
  roundBinary64 (roundBinary64 (5 ^ 8) * 32)

/-- The value of `pow(5,8) * 32 / 1000 * 0.012` (line 461) in `double` arithmetic. -/
def regtestHalvingBinary64 : ℚ :=
  roundBinary64 (roundBinary64 (roundBinary64 (roundBinary64 (5 ^ 8) * 32) / 1000) *
    roundBinary64 0.012)

/-- Modelled from the spec: the decoding of compact difficulty bits
(`arith_uint256::SetCompact`, arith_uint256.cpp): the top byte is the size, the
low three bytes are the mantissa, the target is the mantissa times
`256 ^ (size - 3)`, kept to 256 bits; a size below 3 shifts the mantissa right. -/
def SetCompact (nCompact : Nat) : Nat :=
  let nSize := nCompact / 2 ^ 24 % 256
  let nWord := nCompact % 2 ^ 24
  if nSize ≤ 3 then nWord / 256 ^ (3 - nSize) else nWord * 256 ^ (nSize - 3) % 2 ^ 256

/-- The genesis difficulty of a profile against its proof-of-work ceiling: the
compact bits are `nBits`, the ceiling is `ceiling`, the decoded target is not zero
and not above the ceiling; bit 23 of the compact bits (the sign bit of the compact
format) is clear and the decoding does not overflow 256 bits. -/
def CompactWithinLimit (p : CChainParams) (nBits : Nat) (ceiling : uint256) : Prop :=
  p.genesis.nBits = nBits ∧
  p.consensus.powLimit = ceiling ∧
  0 < SetCompact p.genesis.nBits ∧
  SetCompact p.genesis.nBits ≤ p.consensus.powLimit ∧
  p.genesis.nBits / 2 ^ 23 % 2 = 0 ∧
  (p.genesis.nBits % 2 ^ 24) * 256 ^ (p.genesis.nBits / 2 ^ 24 % 256 - 3) < 2 ^ 256

/-! ## Sample collaborators -/

/-- Collaborators whose hash functions return the pinned values of the four
genesis blocks, told apart by their nonce. -/
def pinnedEnv : Env where
  pushInt64 s n := s ++ [n.toNat]
  pushScriptNum s n := s ++ [n.toNat]
  pushData s d := s ++ d
  pushOpcode s op := s ++ [op]
  OP_CHECKSIG := 0xac
  txHash _ := 0x7677ce2a579cb0411d1c9e6b1e9072b8f537f1e59cb387dacac2daac56e150b0
  Hash2 a b := a + b
  GetHash h :=
    if h.nNonce = 247 then 0x7d5eaec2dbb75f99feadfa524c78b7cabc1d8c8204f79d4f3a83381b811b0adc
    else if h.nNonce = 490 then 0xe0e0e42e493ba7b15f7b0fe1a7e66f73b7fd8b3e6e6a7b0e821a6b95040d3826
    else if h.nNonce = 862 then 0x223231facc4c2337baedba62921cf0ada7f867a869194ce9b3697eefd9d54c59
    else 0xd567a9c891c7a47e6dd03f8006cb65b0d6406b5dc7b2c86d7a904815c394e1f1
  GetPoWHash h :=
    if h.nNonce = 247 then 0x0031205acedcc69a9c18f79b84790179d68fb90588bedee6587ff701bdde04eb
    else if h.nNonce = 490 then 0x0032f49a73e00fc182e08d5ede75c1418c7833092d663e43a5463c1dbd096f28
    else if h.nNonce = 862 then 0x0011df7a28e271dc914cc43b498c0f7107bd549e0d6630055f7c10bb0471bc6b
    else 0x0d144c097fa9c4cf7482fde74f95da8045b516490741af0ee9b1ac1f1dd6c914
  HashWriter v := v.foldl (fun acc b => acc * 256 + b) 0
  genesisReward := 4294967296
  maxMoneyAssert := true
  NO_TIMEOUT := 9223372036854775807
  ALWAYS_ACTIVE := -1
  NEVER_ACTIVE := -2
  SCRIPT_VERIFY_P2SH_WITNESS := 2049
  chainparams_seed_main := []
  chainparams_seed_test := []

/-- Collaborators whose hash functions all return zero; every check on constants
of other headers passes. -/
def zeroHashEnv : Env :=
  { pinnedEnv with
    txHash := fun _ => 0
    GetHash := fun _ => 0
    GetPoWHash := fun _ => 0
    HashWriter := fun _ => 0 }

/-- Regtest options that move segwit to height 7 and CSV to height 432 and
re-time the taproot deployment. -/
def sampleRegTestOptions : RegTestOptions where
  version_bits_parameters :=
    [(.DEPLOYMENT_TAPROOT, { start_time := 1000, timeout := 2000, min_activation_height := 30 })]
  activation_heights := [(.DEPLOYMENT_SEGWIT, 7), (.DEPLOYMENT_CSV, 432)]
  fastprune := false

/-- Challenge-network options with an explicit challenge and explicit seeds. -/
def sampleSigNetOptions : SigNetOptions where
  challenge := some [0x51]
  seeds := some ["seed.example."]

/-- An object before construction: every member zero or empty. -/
def blankParams : CChainParams where
  consensus :=
    { hashGenesisBlock := 0
      nSubsidyHalvingInterval := 0
      script_flag_exceptions := []
      BIP34Height := 0
      BIP34Hash := 0
      BIP65Height := 0
      BIP66Height := 0
      CSVHeight := 0
      SegwitHeight := 0
      MinBIP9WarningHeight := 0
      nRuleChangeActivationThreshold := 0
      nMinerConfirmationWindow := 0
      vDeployments := fun _ =>
        { bit := 0, nStartTime := 0, nTimeout := 0, min_activation_height := 0 }
      powLimit := 0
      fPowAllowMinDifficultyBlocks := false
      fPowNoRetargeting := false
      nPowTargetSpacing := 0
      nPowTargetTimespan := 0
      nPowAveragingWindow := 0
      nPowMaxAdjustDown := 0
      nPowMaxAdjustUp := 0
      nMinimumChainWork := 0
      defaultAssumeValid := 0
      signet_blocks := false
      signet_challenge := [] }
  pchMessageStart := [0, 0, 0, 0]
  nDefaultPort := 0
  nPruneAfterHeight := 0
  m_assumed_blockchain_size := 0
  m_assumed_chain_state_size := 0
  vSeeds := []
  base58Prefixes := fun _ => []
  bech32_hrp := ""
  strNetworkID := .MAIN
  genesis := CBlock.default
  vFixedSeeds := []
  fDefaultConsistencyChecks := false
  fRequireStandard := false
  m_is_test_chain := false
  m_is_mockable_chain := false
  checkpointData := []
  m_assumeutxo_data := []
  chainTxData := { nTime := 0, nTxCount := 0, dTxRate := 0 }

/-- An object before construction whose maximum adjustment-up percentage holds a
recognisable value. -/
def markedParams : CChainParams :=
  { blankParams with consensus := { blankParams.consensus with nPowMaxAdjustUp := -77 } }

/-! ## Auxiliary facts -/

theorem cassert_bind {α : Type} (c : Prop) [Decidable c] (e : AssertFailure)
    (f : Unit → Except AssertFailure α) :
    (cassert c e >>= f) = if c then f () else .error e := by
  unfold cassert
  split <;> rfl

theorem resize_one_nil {α : Type} (d : α) : resize d 1 [] = [d] := by
  simp [resize]

theorem merkleLevel_length (H : uint256 → uint256 → uint256) :
    ∀ n : Nat, ∀ hs : List uint256, hs.length ≤ n → (merkleLevel H hs).length = (hs.length + 1) / 2
  | _, [], _ => by simp [merkleLevel]
  | _, [_], _ => by simp [merkleLevel]
  | 0, _ :: _ :: _, h => by simp at h
  | n + 1, a :: b :: rest, h => by
    have hr : rest.length ≤ n := by
      simp only [List.length_cons] at h
      omega
    have ih := merkleLevel_length H n rest hr
    simp only [merkleLevel, List.length_cons, ih]
    omega

/-- The fuel of `ComputeMerkleRoot` is enough: the loop ends with at most one hash. -/
theorem ComputeMerkleRootLoop_length (H : uint256 → uint256 → uint256) :
    ∀ fuel : Nat, ∀ hs : List uint256, hs.length ≤ fuel + 1 →
      (ComputeMerkleRootLoop H fuel hs).length ≤ 1
  | 0, hs, h => by simpa [ComputeMerkleRootLoop] using h
  | fuel + 1, hs, h => by
    unfold ComputeMerkleRootLoop
    split
    · apply ComputeMerkleRootLoop_length H fuel
      rw [merkleLevel_length H hs.length hs (le_refl _)]
      omega
    · omega

theorem ComputeMerkleRoot_singleton (H : uint256 → uint256 → uint256) (h : uint256) :
    ComputeMerkleRoot H [h] = h := by
  simp [ComputeMerkleRoot, ComputeMerkleRootLoop]

/-- The block `CreateGenesisBlock` returns, field by field. -/
theorem CreateGenesisBlock_eq (env : Env) (msg : List Nat) (script : CScript)
    (nTime nNonce nBits : Nat) (nVersion reward : Int) :
    CreateGenesisBlock env msg script nTime nNonce nBits nVersion reward =
      let tx : CMutableTransaction :=
        { vin := [{ prevout := COutPoint.default
                    scriptSig := env.pushData (env.pushScriptNum (env.pushInt64 [] 486604799) 4) msg
                    nSequence := 0xffffffff }]
          vout := [{ nValue := reward, scriptPubKey := script }]
          nVersion := 1
          nLockTime := 0 }
      { nVersion := nVersion, hashPrevBlock := 0, hashMerkleRoot := env.txHash tx, nTime := nTime,
        nBits := nBits, nNonce := nNonce, vtx := [tx] } := by
  simp [CreateGenesisBlock, CMutableTransaction.default, CBlock.default, CTxIn.default,
    CTxOut.default, resize, BlockMerkleRoot, ComputeMerkleRoot_singleton, List.modifyHead]

theorem toUint64_510 : toUint64 510 = 510 := by simp [toUint64]

theorem toUint64_1024 : toUint64 (510 + 514) = 1024 := by simp [toUint64]

theorem toUint64_512 : toUint64 (510 + 2) = 512 := by simp [toUint64]

theorem toUint64_17 : toUint64 17 = 17 := by simp [toUint64]

theorem toUint64_17_0 : toUint64 (17 + 0) = 17 := by simp [toUint64]

/-- The constructor `CMainParams` as a cascade of the checks that depend on the
collaborators: every check on literals of the file passes. -/
theorem CMainParams_eq (env : Env) (init : CChainParams) :
    CMainParams env init =
      if env.maxMoneyAssert = true then
        if env.GetPoWHash (mainGenesis env).toCBlockHeader =
            0x0031205acedcc69a9c18f79b84790179d68fb90588bedee6587ff701bdde04eb then
          if env.GetHash (mainGenesis env).toCBlockHeader =
              0x7d5eaec2dbb75f99feadfa524c78b7cabc1d8c8204f79d4f3a83381b811b0adc then
            if (mainGenesis env).hashMerkleRoot =
                0x7677ce2a579cb0411d1c9e6b1e9072b8f537f1e59cb387dacac2daac56e150b0 then
              .ok (CMainParams.result env init)
            else .error .genesisMerkleRoot
          else .error .genesisHash
        else .error .genesisPoWHash
      else .error .maxMoney := by
  have e1 : ((CMainParams.rules env init).consensus.nSubsidyHalvingInterval : ℚ) = 5 ^ 8 * 32 := by
    simp only [CMainParams.rules]; norm_num
  have e2 : (CMainParams.rules env init).consensus.nPowTargetSpacing = 10 * 60 / 120 := by
    simp only [CMainParams.rules]; norm_num
  have e3 : maxUint / (CMainParams.shield (CMainParams.rules env init)).consensus.powLimit
      = 1024 := by
    simp only [CMainParams.rules, CMainParams.shield]; norm_num [maxUint]
  have e4 : (CMainParams.shield (CMainParams.rules env init)).consensus.nPowAveragingWindow
      = 510 := by
    simp only [CMainParams.rules, CMainParams.shield]
  simp only [CMainParams, cassert_bind, e1, e2, e3, e4, if_true, toUint64_510, toUint64_1024,
    ge_iff_le, Nat.reduceLeDiff]
  rfl

/-- The constructor `CTestNetParams` as a cascade of the checks that depend on the
collaborators. -/
theorem CTestNetParams_eq (env : Env) (init : CChainParams) :
    CTestNetParams env init =
      if env.maxMoneyAssert = true then
        if env.GetPoWHash (testGenesis env).toCBlockHeader =
            0x0032f49a73e00fc182e08d5ede75c1418c7833092d663e43a5463c1dbd096f28 then
          if env.GetHash (testGenesis env).toCBlockHeader =
              0xe0e0e42e493ba7b15f7b0fe1a7e66f73b7fd8b3e6e6a7b0e821a6b95040d3826 then
            if (testGenesis env).hashMerkleRoot =
                0x7677ce2a579cb0411d1c9e6b1e9072b8f537f1e59cb387dacac2daac56e150b0 then
              .ok (CTestNetParams.result env init)
            else .error .genesisMerkleRoot
          else .error .genesisHash
        else .error .genesisPoWHash
      else .error .maxMoney := by
  have e1 : ((CTestNetParams.rules env init).consensus.nSubsidyHalvingInterval : ℚ)
      = 5 ^ 8 * 32 := by
    simp only [CTestNetParams.rules]; norm_num
  have e2 : (CTestNetParams.rules env init).consensus.nPowTargetSpacing = 10 * 60 / 120 := by
    simp only [CTestNetParams.rules]; norm_num
  have e3 : maxUint / (CTestNetParams.shield (CTestNetParams.rules env init)).consensus.powLimit
      = 1024 := by
    simp only [CTestNetParams.rules, CTestNetParams.shield]; norm_num [maxUint]
  have e4 : (CTestNetParams.shield (CTestNetParams.rules env init)).consensus.nPowAveragingWindow
      = 510 := by
    simp only [CTestNetParams.rules, CTestNetParams.shield]
  simp only [CTestNetParams, cassert_bind, e1, e2, e3, e4, if_true, toUint64_510, toUint64_1024,
    ge_iff_le, Nat.reduceLeDiff]
  rfl

/-- The constructor `SigNetParams` as a cascade of the checks that depend on the
collaborators. -/
theorem SigNetParams_eq (env : Env) (options : SigNetOptions) (init : CChainParams) :
    SigNetParams env options init =
      if env.maxMoneyAssert = true then
        if env.GetPoWHash (signetGenesis env).toCBlockHeader =
            0x0011df7a28e271dc914cc43b498c0f7107bd549e0d6630055f7c10bb0471bc6b then
          if env.GetHash (signetGenesis env).toCBlockHeader =
              0x223231facc4c2337baedba62921cf0ada7f867a869194ce9b3697eefd9d54c59 then
            if (signetGenesis env).hashMerkleRoot =
                0x7677ce2a579cb0411d1c9e6b1e9072b8f537f1e59cb387dacac2daac56e150b0 then
              .ok (SigNetParams.result env options init)
            else .error .genesisMerkleRoot
          else .error .genesisHash
        else .error .genesisPoWHash
      else .error .maxMoney := by
  have e1 : ∀ bin p, ((SigNetParams.rules env bin p).consensus.nSubsidyHalvingInterval : ℚ)
      = 5 ^ 8 * 32 := by
    intro bin p; simp only [SigNetParams.rules]; norm_num
  have e2 : ∀ bin p, (SigNetParams.rules env bin p).consensus.nPowTargetSpacing
      = 10 * 60 / 120 := by
    intro bin p; simp only [SigNetParams.rules]; norm_num
  have e3 : ∀ bin p, maxUint / (SigNetParams.shield (SigNetParams.rules env bin p)).consensus.powLimit
      = 512 := by
    intro bin p; simp only [SigNetParams.rules, SigNetParams.shield]; norm_num [maxUint]
  have e4 : ∀ bin p, (SigNetParams.shield (SigNetParams.rules env bin p)).consensus.nPowAveragingWindow
      = 510 := by
    intro bin p; simp only [SigNetParams.rules, SigNetParams.shield]
  simp only [SigNetParams, cassert_bind, e1, e2, e3, e4, if_true, toUint64_510, toUint64_512,
    ge_iff_le, Nat.reduceLeDiff]
  rfl

/-- The constructor `CRegTestParams` as a cascade of the checks that depend on the
collaborators. -/
theorem CRegTestParams_eq (env : Env) (opts : RegTestOptions) (init : CChainParams) :
    CRegTestParams env opts init =
      if env.maxMoneyAssert = true then
        if env.GetPoWHash (regtestGenesis env).toCBlockHeader =
            0x0d144c097fa9c4cf7482fde74f95da8045b516490741af0ee9b1ac1f1dd6c914 then
          if env.GetHash (regtestGenesis env).toCBlockHeader =
              0xd567a9c891c7a47e6dd03f8006cb65b0d6406b5dc7b2c86d7a904815c394e1f1 then
            if (regtestGenesis env).hashMerkleRoot =
                0x7677ce2a579cb0411d1c9e6b1e9072b8f537f1e59cb387dacac2daac56e150b0 then
              .ok (CRegTestParams.result env opts init)
            else .error .genesisMerkleRoot
          else .error .genesisHash
        else .error .genesisPoWHash
      else .error .maxMoney := by
  have e1 : ((CRegTestParams.rules env init).consensus.nSubsidyHalvingInterval : ℚ)
      = 5 ^ 8 * 32 / 1000 * 0.012 := by
    simp only [CRegTestParams.rules]; norm_num
  have e2 : (CRegTestParams.rules env init).consensus.nPowTargetSpacing = 10 * 60 / 120 := by
    simp only [CRegTestParams.rules]; norm_num
  have e3 : maxUint / (CRegTestParams.shield (CRegTestParams.rules env init)).consensus.powLimit
      = 17 := by
    simp only [CRegTestParams.rules, CRegTestParams.shield]; norm_num [maxUint]
  have e4 : (CRegTestParams.shield (CRegTestParams.rules env init)).consensus.nPowAveragingWindow
      = 17 := by
    simp only [CRegTestParams.rules, CRegTestParams.shield]
  simp only [CRegTestParams, cassert_bind, e1, e2, e3, e4, if_true, toUint64_17, toUint64_17_0,
    ge_iff_le, le_refl]
  rfl

theorem CMainParams_ok (env : Env) (init : CChainParams) (h : MainChecksPass env) :
    CMainParams env init = .ok (CMainParams.result env init) := by
  obtain ⟨h0, h1, h2, h3⟩ := h
  rw [CMainParams_eq, if_pos h0, if_pos h1, if_pos h2, if_pos h3]

theorem CTestNetParams_ok (env : Env) (init : CChainParams) (h : TestChecksPass env) :
    CTestNetParams env init = .ok (CTestNetParams.result env init) := by
  obtain ⟨h0, h1, h2, h3⟩ := h
  rw [CTestNetParams_eq, if_pos h0, if_pos h1, if_pos h2, if_pos h3]

theorem SigNetParams_ok (env : Env) (options : SigNetOptions) (init : CChainParams)
    (h : SigNetChecksPass env) :
    SigNetParams env options init = .ok (SigNetParams.result env options init) := by
  obtain ⟨h0, h1, h2, h3⟩ := h
  rw [SigNetParams_eq, if_pos h0, if_pos h1, if_pos h2, if_pos h3]

theorem CRegTestParams_ok (env : Env) (opts : RegTestOptions) (init : CChainParams)
    (h : RegTestChecksPass env) :
    CRegTestParams env opts init = .ok (CRegTestParams.result env opts init) := by
  obtain ⟨h0, h1, h2, h3⟩ := h
  rw [CRegTestParams_eq, if_pos h0, if_pos h1, if_pos h2, if_pos h3]

theorem mainGenesis_eq (env : Env) :
    mainGenesis env =
      CreateGenesisBlock env pszTimestamp (env.pushOpcode (env.pushData [] genesisPubKey)
        env.OP_CHECKSIG) 1565881200 247 0x1f3fffff 1 env.genesisReward := rfl

theorem testGenesis_eq (env : Env) :
    testGenesis env =
      CreateGenesisBlock env pszTimestamp (env.pushOpcode (env.pushData [] genesisPubKey)
        env.OP_CHECKSIG) 1565913601 490 0x1f3fffff 1 env.genesisReward := rfl

theorem signetGenesis_eq (env : Env) :
    signetGenesis env =
      CreateGenesisBlock env pszTimestamp (env.pushOpcode (env.pushData [] genesisPubKey)
        env.OP_CHECKSIG) 1602302400 862 0x1f7fffff 1 env.genesisReward := rfl

theorem regtestGenesis_eq (env : Env) :
    regtestGenesis env =
      CreateGenesisBlock env pszTimestamp (env.pushOpcode (env.pushData [] genesisPubKey)
        env.OP_CHECKSIG) 1565913602 9 0x200f0f0f 1 env.genesisReward := rfl

theorem pinnedEnv_main : MainChecksPass pinnedEnv := by
  simp [MainChecksPass, mainGenesis_eq, CreateGenesisBlock_eq, pinnedEnv]

theorem pinnedEnv_test : TestChecksPass pinnedEnv := by
  simp [TestChecksPass, testGenesis_eq, CreateGenesisBlock_eq, pinnedEnv]

theorem pinnedEnv_signet : SigNetChecksPass pinnedEnv := by
  simp [SigNetChecksPass, signetGenesis_eq, CreateGenesisBlock_eq, pinnedEnv]

theorem pinnedEnv_regtest : RegTestChecksPass pinnedEnv := by
  simp [RegTestChecksPass, regtestGenesis_eq, CreateGenesisBlock_eq, pinnedEnv]

theorem exists_ok_iff_of_cascade {c0 c1 c2 c3 : Prop} [Decidable c0] [Decidable c1]
    [Decidable c2] [Decidable c3] (r : Except AssertFailure CChainParams) (q : CChainParams)
    (h : r = if c0 then if c1 then if c2 then if c3 then .ok q
      else .error .genesisMerkleRoot else .error .genesisHash else .error .genesisPoWHash
      else .error .maxMoney) :
    (∃ p, r = .ok p) ↔ (c0 ∧ c1 ∧ c2 ∧ c3) := by
  subst h
  constructor
  · rintro ⟨p, hp⟩
    split_ifs at hp with h0 h1 h2 h3
    exact ⟨h0, h1, h2, h3⟩
  · rintro ⟨h0, h1, h2, h3⟩
    exact ⟨q, by rw [if_pos h0, if_pos h1, if_pos h2, if_pos h3]⟩

theorem not_abortedOnRatio_of_cascade {c0 c1 c2 c3 : Prop} [Decidable c0] [Decidable c1]
    [Decidable c2] [Decidable c3] (r : Except AssertFailure CChainParams) (q : CChainParams)
    (h : r = if c0 then if c1 then if c2 then if c3 then .ok q
      else .error .genesisMerkleRoot else .error .genesisHash else .error .genesisPoWHash
      else .error .maxMoney) :
    abortedOnRatio r = false := by
  subst h
  split_ifs <;> rfl

theorem DeploymentHeight_setActivationHeight (p : CChainParams) (d d' : BuriedDeployment)
    (h : Int) :
    (CRegTestParams.setActivationHeight p d h).consensus.DeploymentHeight d' =
      if d' = d then h else p.consensus.DeploymentHeight d' := by
  cases d <;> cases d' <;>
    simp [CRegTestParams.setActivationHeight, Consensus.Params.DeploymentHeight]

theorem vDeployments_setActivationHeight (p : CChainParams) (d : BuriedDeployment) (h : Int) :
    (CRegTestParams.setActivationHeight p d h).consensus.vDeployments =
      p.consensus.vDeployments := by
  cases d <;> rfl

theorem DeploymentHeight_setVersionBits (p : CChainParams) (pos : DeploymentPos)
    (v : VersionBitsParameters) (d : BuriedDeployment) :
    (CRegTestParams.setVersionBits p pos v).consensus.DeploymentHeight d =
      p.consensus.DeploymentHeight d := by
  cases d <;> rfl

theorem vDeployments_setVersionBits (p : CChainParams) (pos pos' : DeploymentPos)
    (v : VersionBitsParameters) :
    (CRegTestParams.setVersionBits p pos v).consensus.vDeployments pos' =
      if pos' = pos then
        { p.consensus.vDeployments pos with
          nStartTime := v.start_time
          nTimeout := v.timeout
          min_activation_height := v.min_activation_height }
      else p.consensus.vDeployments pos' := by
  by_cases h : pos' = pos
  · subst h
    simp [CRegTestParams.setVersionBits, setDeployment]
  · simp [CRegTestParams.setVersionBits, setDeployment, h]

/-- The first loop leaves alone a deployment that is not a key of the map. -/
theorem activation_loop_absent (l : List (BuriedDeployment × Int)) (d : BuriedDeployment) :
    ∀ p : CChainParams, d ∉ l.map Prod.fst →
      (l.foldl (fun p entry => CRegTestParams.setActivationHeight p entry.1 entry.2)
        p).consensus.DeploymentHeight d = p.consensus.DeploymentHeight d := by
  induction l with
  | nil => intro p _; rfl
  | cons e t ih =>
    intro p hd
    simp only [List.map_cons, List.mem_cons, not_or] at hd
    simp only [List.foldl_cons]
    rw [ih _ hd.2, DeploymentHeight_setActivationHeight, if_neg hd.1]

/-- The first loop assigns the height of the entry of a deployment. -/
theorem activation_loop_present (l : List (BuriedDeployment × Int)) (d : BuriedDeployment)
    (h : Int) :
    ∀ p : CChainParams, (l.map Prod.fst).Nodup → (d, h) ∈ l →
      (l.foldl (fun p entry => CRegTestParams.setActivationHeight p entry.1 entry.2)
        p).consensus.DeploymentHeight d = h := by
  induction l with
  | nil => intro p _ hm; simp at hm
  | cons e t ih =>
    intro p hnd hm
    simp only [List.map_cons, List.nodup_cons] at hnd
    simp only [List.foldl_cons]
    rcases List.mem_cons.mp hm with heq | hin
    · subst heq
      rw [activation_loop_absent t d _ hnd.1, DeploymentHeight_setActivationHeight, if_pos rfl]
    · exact ih _ hnd.2 hin

theorem activation_loop_vDeployments (l : List (BuriedDeployment × Int)) :
    ∀ p : CChainParams,
      (l.foldl (fun p entry => CRegTestParams.setActivationHeight p entry.1 entry.2)
        p).consensus.vDeployments = p.consensus.vDeployments := by
  induction l with
  | nil => intro p; rfl
  | cons e t ih =>
    intro p
    simp only [List.foldl_cons]
    rw [ih, vDeployments_setActivationHeight]

theorem timing_loop_heights (l : List (DeploymentPos × VersionBitsParameters))
    (d : BuriedDeployment) :
    ∀ p : CChainParams,
      (l.foldl (fun p entry => CRegTestParams.setVersionBits p entry.1 entry.2)
        p).consensus.DeploymentHeight d = p.consensus.DeploymentHeight d := by
  induction l with
  | nil => intro p; rfl
  | cons e t ih =>
    intro p
    simp only [List.foldl_cons]
    rw [ih, DeploymentHeight_setVersionBits]

/-- The second loop never changes a bit index. -/
theorem timing_loop_bit (l : List (DeploymentPos × VersionBitsParameters))
    (pos : DeploymentPos) :
    ∀ p : CChainParams,
      ((l.foldl (fun p entry => CRegTestParams.setVersionBits p entry.1 entry.2)
        p).consensus.vDeployments pos).bit = (p.consensus.vDeployments pos).bit := by
  induction l with
  | nil => intro p; rfl
  | cons e t ih =>
    intro p
    simp only [List.foldl_cons]
    rw [ih, vDeployments_setVersionBits]
    split
    · next h => subst h; rfl
    · rfl

/-- The second loop leaves alone a deployment that is not a key of the map. -/
theorem timing_loop_absent (l : List (DeploymentPos × VersionBitsParameters))
    (pos : DeploymentPos) :
    ∀ p : CChainParams, pos ∉ l.map Prod.fst →
      (l.foldl (fun p entry => CRegTestParams.setVersionBits p entry.1 entry.2)
        p).consensus.vDeployments pos = p.consensus.vDeployments pos := by
  induction l with
  | nil => intro p _; rfl
  | cons e t ih =>
    intro p hd
    simp only [List.map_cons, List.mem_cons, not_or] at hd
    simp only [List.foldl_cons]
    rw [ih _ hd.2, vDeployments_setVersionBits, if_neg hd.1]

/-- The second loop assigns the timing of the entry of a deployment. -/
theorem timing_loop_present (l : List (DeploymentPos × VersionBitsParameters))
    (pos : DeploymentPos) (v : VersionBitsParameters) :
    ∀ p : CChainParams, (l.map Prod.fst).Nodup → (pos, v) ∈ l →
      ((l.foldl (fun p entry => CRegTestParams.setVersionBits p entry.1 entry.2)
        p).consensus.vDeployments pos).nStartTime = v.start_time ∧
      ((l.foldl (fun p entry => CRegTestParams.setVersionBits p entry.1 entry.2)
        p).consensus.vDeployments pos).nTimeout = v.timeout ∧
      ((l.foldl (fun p entry => CRegTestParams.setVersionBits p entry.1 entry.2)
        p).consensus.vDeployments pos).min_activation_height = v.min_activation_height := by
  induction l with
  | nil => intro p _ hm; simp at hm
  | cons e t ih =>
    intro p hnd hm
    simp only [List.map_cons, List.nodup_cons] at hnd
    simp only [List.foldl_cons]
    rcases List.mem_cons.mp hm with heq | hin
    · subst heq
      rw [timing_loop_absent t pos _ hnd.1, vDeployments_setVersionBits, if_pos rfl]
      exact ⟨rfl, rfl, rfl⟩
    · exact ih _ hnd.2 hin

/-- The buried heights of the regtest object are those left by the first loop. -/
theorem CRegTestParams.result_DeploymentHeight (env : Env) (opts : RegTestOptions)
    (init : CChainParams) (d : BuriedDeployment) :
    (CRegTestParams.result env opts init).consensus.DeploymentHeight d =
      (opts.activation_heights.foldl
        (fun p entry => CRegTestParams.setActivationHeight p entry.1 entry.2)
        (CRegTestParams.identity opts (CRegTestParams.shield
          (CRegTestParams.rules env init)))).consensus.DeploymentHeight d := by
  have h : (CRegTestParams.result env opts init).consensus.DeploymentHeight d =
      (CRegTestParams.overrides opts (CRegTestParams.identity opts (CRegTestParams.shield
          (CRegTestParams.rules env init)))).consensus.DeploymentHeight d := by
    cases d <;> rfl
  rw [h, CRegTestParams.overrides, timing_loop_heights]

/-- The deployments of the regtest object are those left by the second loop. -/
theorem CRegTestParams.result_vDeployments (env : Env) (opts : RegTestOptions)
    (init : CChainParams) :
    (CRegTestParams.result env opts init).consensus.vDeployments =
      (opts.version_bits_parameters.foldl
        (fun p entry => CRegTestParams.setVersionBits p entry.1 entry.2)
        (opts.activation_heights.foldl
          (fun p entry => CRegTestParams.setActivationHeight p entry.1 entry.2)
          (CRegTestParams.identity opts (CRegTestParams.shield
            (CRegTestParams.rules env init))))).consensus.vDeployments := rfl

theorem regtest_defaults_heights (env : Env) (opts : RegTestOptions) (init : CChainParams)
    (d : BuriedDeployment) :
    (CRegTestParams.identity opts (CRegTestParams.shield
      (CRegTestParams.rules env init))).consensus.DeploymentHeight d = regtestDefaultHeight d := by
  cases d <;> rfl

theorem regtest_defaults_deployments (env : Env) (opts : RegTestOptions) (init : CChainParams)
    (pos : DeploymentPos) :
    (CRegTestParams.identity opts (CRegTestParams.shield
      (CRegTestParams.rules env init))).consensus.vDeployments pos =
        regtestDefaultDeployment env pos := by
  cases pos <;>
    simp [CRegTestParams.identity, CRegTestParams.shield, CRegTestParams.rules, setDeployment,
      regtestDefaultDeployment]

/-- The members of the challenge-network object the statements below speak of. -/
theorem SigNetParams.result_members (env : Env) (options : SigNetOptions)
    (init : CChainParams) :
    (SigNetParams.result env options init).pchMessageStart =
      first4Bytes (env.HashWriter (effectiveChallenge options)) ∧
    (SigNetParams.result env options init).consensus.signet_challenge =
      effectiveChallenge options ∧
    (SigNetParams.result env options init).consensus.signet_blocks = true ∧
    (SigNetParams.result env options init).vSeeds = options.seeds.getD [] ∧
    (SigNetParams.result env options init).consensus.nMinimumChainWork = 0 ∧
    (SigNetParams.result env options init).consensus.defaultAssumeValid = 0 ∧
    (SigNetParams.result env options init).m_assumed_blockchain_size = 0 ∧
    (SigNetParams.result env options init).m_assumed_chain_state_size = 0 ∧
    (SigNetParams.result env options init).chainTxData =
      { nTime := 0, nTxCount := 0, dTxRate := 0 } := by
  rcases options with ⟨_ | challenge, _ | seeds⟩ <;>
    exact ⟨rfl, rfl, rfl, rfl, rfl, rfl, rfl, rfl, rfl⟩

/-- A construction that returns a profile passed the four collaborator checks and
returns the object of the last branch. -/
theorem ok_of_cascade {c0 c1 c2 c3 : Prop} [Decidable c0] [Decidable c1]
    [Decidable c2] [Decidable c3] (r : Except AssertFailure CChainParams) (q p : CChainParams)
    (h : r = if c0 then if c1 then if c2 then if c3 then .ok q
      else .error .genesisMerkleRoot else .error .genesisHash else .error .genesisPoWHash
      else .error .maxMoney)
    (hok : r = .ok p) :
    (c0 ∧ c1 ∧ c2 ∧ c3) ∧ p = q := by
  subst h
  split_ifs at hok with h0 h1 h2 h3
  exact ⟨⟨h0, h1, h2, h3⟩, (Except.ok.inj hok).symm⟩

theorem SigNetParams.result_checkpointData (env : Env) (options : SigNetOptions)
    (init : CChainParams) :
    (SigNetParams.result env options init).checkpointData = init.checkpointData := by
  rcases options with ⟨_ | challenge, _ | seeds⟩ <;> rfl

theorem not_abortedOnConstant_of_cascade {c0 c1 c2 c3 : Prop} [Decidable c0] [Decidable c1]
    [Decidable c2] [Decidable c3] (r : Except AssertFailure CChainParams) (q : CChainParams)
    (h : r = if c0 then if c1 then if c2 then if c3 then .ok q
      else .error .genesisMerkleRoot else .error .genesisHash else .error .genesisPoWHash
      else .error .maxMoney) :
    abortedOnConstant r = false := by
  subst h
  split_ifs <;> rfl

/-- One `double` operation whose exact result `q` lies in the binade of `2 ^ e` and
is nearer than half a unit in the last place to `n` units gives `n` units. -/
theorem roundBinary64_eq (q : ℚ) (e n : ℤ) (hlo : (2 : ℚ) ^ e ≤ q)
    (hhi : q < (2 : ℚ) ^ (e + 1)) (hn : |q / (2 : ℚ) ^ (e - 52) - n| < 1 / 2) :
    roundBinary64 q = n * (2 : ℚ) ^ (e - 52) := by
  have hq : 0 < q := lt_of_lt_of_le (by positivity) hlo
  have hlog : Int.log 2 q = e := by
    apply le_antisymm
    · have := (Int.lt_zpow_iff_log_lt (b := 2) (by norm_num) (x := e + 1) hq).mp
        (by exact_mod_cast hhi)
      omega
    · exact (Int.zpow_le_iff_le_log (b := 2) (by norm_num) hq).mp (by exact_mod_cast hlo)
  unfold roundBinary64
  simp only [hlog]
  rw [abs_lt] at hn
  obtain ⟨h1, h2⟩ := hn
  by_cases hle : (n : ℚ) ≤ q / (2 : ℚ) ^ (e - 52)
  · have hfloor : ⌊q / (2 : ℚ) ^ (e - 52)⌋ = n := by
      rw [Int.floor_eq_iff]
      constructor
      · exact hle
      · linarith
    rw [hfloor, if_pos (by linarith)]
  · push_neg at hle
    have hfloor : ⌊q / (2 : ℚ) ^ (e - 52)⌋ = n - 1 := by
      rw [Int.floor_eq_iff]
      constructor
      · push_cast; linarith
      · push_cast; linarith
    rw [hfloor, if_neg (by push_cast; linarith), if_pos (by push_cast; linarith)]
    simp

/-- The expression `pow(5,8) * 32` evaluates in `double` arithmetic to the number
it denotes in rational arithmetic. -/
theorem halvingBinary64_eq : halvingBinary64 = 5 ^ 8 * 32 := by
  have h1 : roundBinary64 (5 ^ 8) = 390625 := by
    rw [roundBinary64_eq (5 ^ 8) 18 (390625 * 2 ^ 34) (by norm_num) (by norm_num) (by norm_num)]
    norm_num
  have h2 : roundBinary64 (390625 * 32) = 12500000 := by
    rw [roundBinary64_eq (390625 * 32) 23 (12500000 * 2 ^ 29) (by norm_num) (by norm_num)
      (by norm_num)]
    norm_num
  rw [halvingBinary64, h1, h2]
  norm_num

/-- The expression `pow(5,8) * 32 / 1000 * 0.012` evaluates in `double` arithmetic
to 150, the number it denotes in rational arithmetic: the literal 0.012 is
rounded to 6917529027641082 / 2^59 and the last product is rounded back to 150. -/
theorem regtestHalvingBinary64_eq :
    regtestHalvingBinary64 = 150 ∧ regtestHalvingBinary64 = 5 ^ 8 * 32 / 1000 * 0.012 := by
  have h1 : roundBinary64 (5 ^ 8) = 390625 := by
    rw [roundBinary64_eq (5 ^ 8) 18 (390625 * 2 ^ 34) (by norm_num) (by norm_num) (by norm_num)]
    norm_num
  have h2 : roundBinary64 (390625 * 32) = 12500000 := by
    rw [roundBinary64_eq (390625 * 32) 23 (12500000 * 2 ^ 29) (by norm_num) (by norm_num)
      (by norm_num)]
    norm_num
  have h3 : roundBinary64 (12500000 / 1000) = 12500 := by
    rw [roundBinary64_eq (12500000 / 1000) 13 (12500 * 2 ^ 39) (by norm_num) (by norm_num)
      (by norm_num)]
    norm_num
  have h4 : roundBinary64 0.012 = 6917529027641082 / 2 ^ 59 := by
    rw [roundBinary64_eq 0.012 (-7) 6917529027641082 (by norm_num) (by norm_num)
      (by norm_num [abs_lt])]
    norm_num
  have h5 : roundBinary64 (12500 * (6917529027641082 / 2 ^ 59)) = 150 := by
    rw [roundBinary64_eq (12500 * (6917529027641082 / 2 ^ 59)) 7 (150 * 2 ^ 45) (by norm_num)
      (by norm_num) (by norm_num [abs_lt])]
    norm_num
  have h : regtestHalvingBinary64 = 150 := by
    rw [regtestHalvingBinary64, h1, h2, h3, h4, h5]
  exact ⟨h, by rw [h]; norm_num⟩

theorem nPruneAfterHeight_setActivationHeight (p : CChainParams) (d : BuriedDeployment)
    (h : Int) :
    (CRegTestParams.setActivationHeight p d h).nPruneAfterHeight = p.nPruneAfterHeight := by
  cases d <;> rfl

theorem powLimit_setActivationHeight (p : CChainParams) (d : BuriedDeployment) (h : Int) :
    (CRegTestParams.setActivationHeight p d h).consensus.powLimit = p.consensus.powLimit := by
  cases d <;> rfl

/-- The two loops of regtest leave the prune-after height and the proof-of-work
ceiling as they are. -/
theorem CRegTestParams.overrides_frame (opts : RegTestOptions) (p : CChainParams) :
    (CRegTestParams.overrides opts p).nPruneAfterHeight = p.nPruneAfterHeight ∧
    (CRegTestParams.overrides opts p).consensus.powLimit = p.consensus.powLimit := by
  have h1 : ∀ (l : List (BuriedDeployment × Int)) (p : CChainParams),
      (l.foldl (fun p entry => CRegTestParams.setActivationHeight p entry.1 entry.2)
        p).nPruneAfterHeight = p.nPruneAfterHeight ∧
      (l.foldl (fun p entry => CRegTestParams.setActivationHeight p entry.1 entry.2)
        p).consensus.powLimit = p.consensus.powLimit := by
    intro l
    induction l with
    | nil => intro p; exact ⟨rfl, rfl⟩
    | cons e t ih =>
      intro p
      simp only [List.foldl_cons]
      rw [(ih _).1, (ih _).2, nPruneAfterHeight_setActivationHeight,
        powLimit_setActivationHeight]
      exact ⟨rfl, rfl⟩
  have h2 : ∀ (l : List (DeploymentPos × VersionBitsParameters)) (p : CChainParams),
      (l.foldl (fun p entry => CRegTestParams.setVersionBits p entry.1 entry.2)
        p).nPruneAfterHeight = p.nPruneAfterHeight ∧
      (l.foldl (fun p entry => CRegTestParams.setVersionBits p entry.1 entry.2)
        p).consensus.powLimit = p.consensus.powLimit := by
    intro l
    induction l with
    | nil => intro p; exact ⟨rfl, rfl⟩
    | cons e t ih =>
      intro p
      simp only [List.foldl_cons]
      rw [(ih _).1, (ih _).2]
      exact ⟨rfl, rfl⟩
  unfold CRegTestParams.overrides
  exact ⟨by rw [(h2 _ _).1, (h1 _ _).1], by rw [(h2 _ _).2, (h1 _ _).2]⟩

theorem CRegTestParams.result_nPruneAfterHeight (env : Env) (opts : RegTestOptions)
    (init : CChainParams) :
    (CRegTestParams.result env opts init).nPruneAfterHeight =
      if opts.fastprune then 100 else 1000 := by
  have h : (CRegTestParams.result env opts init).nPruneAfterHeight =
      (CRegTestParams.overrides opts (CRegTestParams.identity opts (CRegTestParams.shield
        (CRegTestParams.rules env init)))).nPruneAfterHeight := rfl
  rw [h, (CRegTestParams.overrides_frame _ _).1]
  rfl

/-- The retarget fields of the test-network object: two are assigned, the maximum
adjustment up is the one of the object the constructor started from. -/
theorem CTestNetParams.result_retarget (env : Env) (init : CChainParams) :
    (CTestNetParams.result env init).consensus.nPowAveragingWindow = 510 ∧
    (CTestNetParams.result env init).consensus.nPowMaxAdjustDown = 32 ∧
    (CTestNetParams.result env init).consensus.nPowMaxAdjustUp =
      init.consensus.nPowMaxAdjustUp :=
  ⟨rfl, rfl, rfl⟩

theorem CRegTestParams.result_ceiling (env : Env) (opts : RegTestOptions)
    (init : CChainParams) :
    (CRegTestParams.result env opts init).consensus.powLimit =
      0x0f0f0f0f0f0f0f0f0f0f0f0f0f0f0f0f0f0f0f0f0f0f0f0f0f0f0f0f0f0f0f0f := by
  have h : (CRegTestParams.result env opts init).consensus.powLimit =
      (CRegTestParams.overrides opts (CRegTestParams.identity opts (CRegTestParams.shield
        (CRegTestParams.rules env init)))).consensus.powLimit := rfl
  rw [h, (CRegTestParams.overrides_frame _ _).2]
  rfl

theorem SigNetParams.result_ceiling_and_genesis (env : Env) (options : SigNetOptions)
    (init : CChainParams) :
    (SigNetParams.result env options init).consensus.powLimit =
      0x7fffffffffffffffffffffffffffffffffffffffffffffffffffffffffffff ∧
    (SigNetParams.result env options init).genesis = signetGenesis env := by
  rcases options with ⟨_ | challenge, _ | seeds⟩ <;> exact ⟨rfl, rfl⟩

/-! ## Genesis builder: C1, C2, C3 -/

/-- C1. For every input, the block `CreateGenesisBlock` returns has a null
previous-block hash, holds exactly one transaction, and its header fields time,
bits, nonce and version are the corresponding arguments. -/
theorem genesis_header_fields (env : Env) (msg : List Nat) (script : CScript)
    (nTime nNonce nBits : Nat) (nVersion reward : Int) :
    (CreateGenesisBlock env msg script nTime nNonce nBits nVersion reward).hashPrevBlock = 0 ∧
    (CreateGenesisBlock env msg script nTime nNonce nBits nVersion reward).vtx.length = 1 ∧
    (CreateGenesisBlock env msg script nTime nNonce nBits nVersion reward).nTime = nTime ∧
    (CreateGenesisBlock env msg script nTime nNonce nBits nVersion reward).nBits = nBits ∧
    (CreateGenesisBlock env msg script nTime nNonce nBits nVersion reward).nNonce = nNonce ∧
    (CreateGenesisBlock env msg script nTime nNonce nBits nVersion reward).nVersion = nVersion := by
  rw [CreateGenesisBlock_eq]
  simp

/-- C2. For every input, the one transaction of the block `CreateGenesisBlock`
returns has version 1, exactly one input, whose previous output is null and whose
unlocking script is the empty script extended by the number 486604799, then by
the script number 4, then by the message bytes, and exactly one output, whose
value is the reward and whose locking script is the output script. -/
theorem genesis_coinbase_shape (env : Env) (msg : List Nat) (script : CScript)
    (nTime nNonce nBits : Nat) (nVersion reward : Int) :
    ∃ (tx : CMutableTransaction) (txin : CTxIn) (txout : CTxOut),
      (CreateGenesisBlock env msg script nTime nNonce nBits nVersion reward).vtx = [tx] ∧
      tx.nVersion = 1 ∧
      tx.vin = [txin] ∧
      txin.prevout.IsNull = true ∧
      txin.scriptSig = env.pushData (env.pushScriptNum (env.pushInt64 [] 486604799) 4) msg ∧
      tx.vout = [txout] ∧
      txout.nValue = reward ∧
      txout.scriptPubKey = script := by
  rw [CreateGenesisBlock_eq]
  exact ⟨_, _, _, rfl, rfl, rfl, by simp [COutPoint.IsNull, COutPoint.default], rfl, rfl, rfl, rfl⟩

/-- C3. For every input, the merkle root in the header of the block
`CreateGenesisBlock` returns is the hash of the block's single transaction. -/
theorem genesis_merkle_root_is_coinbase_hash (env : Env) (msg : List Nat) (script : CScript)
    (nTime nNonce nBits : Nat) (nVersion reward : Int) :
    ∃ tx : CMutableTransaction,
      (CreateGenesisBlock env msg script nTime nNonce nBits nVersion reward).vtx = [tx] ∧
      (CreateGenesisBlock env msg script nTime nNonce nBits nVersion reward).hashMerkleRoot =
        env.txHash tx := by
  rw [CreateGenesisBlock_eq]
  exact ⟨_, rfl, rfl⟩

/-! ## Ratio of the work range to the proof-of-work ceiling: C4 -/

/-- C4. In each of the four constructors, at the three ratio `assert`s, the
quotient of `maxUint` (which is 2^256 - 1) by `powLimit` is the documented
constant (1024 for main and test, 512 for the challenge network, 17 for regtest),
the averaging window is 510, 510, 510, 17, the quotient is at least the window
and equals the window plus the documented headroom (514, 514, 2, 0); no
construction is stopped by a ratio `assert`. -/
theorem ratio_assertions_hold (env : Env) (init : CChainParams) (sopts : SigNetOptions)
    (ropts : RegTestOptions) (bin : List Nat) (p : CChainParams) :
    maxUint = 2 ^ 256 - 1 ∧
    RatioFacts (CMainParams.shield (CMainParams.rules env init)).consensus 1024 510 514 ∧
    abortedOnRatio (CChainParams.Main env init) = false ∧
    RatioFacts (CTestNetParams.shield (CTestNetParams.rules env init)).consensus 1024 510 514 ∧
    abortedOnRatio (CChainParams.TestNet env init) = false ∧
    RatioFacts (SigNetParams.shield (SigNetParams.rules env bin p)).consensus 512 510 2 ∧
    abortedOnRatio (CChainParams.SigNet env sopts init) = false ∧
    RatioFacts (CRegTestParams.shield (CRegTestParams.rules env init)).consensus 17 17 0 ∧
    abortedOnRatio (CChainParams.RegTest env ropts init) = false := by
  refine ⟨by norm_num [maxUint], ?_, ?_, ?_, ?_, ?_, ?_, ?_, ?_⟩
  · simp only [RatioFacts, CMainParams.rules, CMainParams.shield]; norm_num [maxUint]
  · exact not_abortedOnRatio_of_cascade _ _ (CMainParams_eq env init)
  · simp only [RatioFacts, CTestNetParams.rules, CTestNetParams.shield]; norm_num [maxUint]
  · exact not_abortedOnRatio_of_cascade _ _ (CTestNetParams_eq env init)
  · simp only [RatioFacts, SigNetParams.rules, SigNetParams.shield]; norm_num [maxUint]
  · exact not_abortedOnRatio_of_cascade _ _ (SigNetParams_eq env sopts init)
  · simp only [RatioFacts, CRegTestParams.rules, CRegTestParams.shield]; norm_num [maxUint]
  · exact not_abortedOnRatio_of_cascade _ _ (CRegTestParams_eq env ropts init)

/-! ## Pinned genesis values: C5 -/

/-- C5, counterexample. With hash functions that return zero, regtest (default
options) and the challenge network with an explicit challenge are both stopped by
the `assert` on the pinned proof-of-work hash: their genesis values are pinned too. -/
theorem regtest_and_custom_signet_are_pinned :
    CChainParams.RegTest zeroHashEnv
        { version_bits_parameters := [], activation_heights := [], fastprune := false }
        blankParams = .error .genesisPoWHash ∧
    CChainParams.SigNet zeroHashEnv { challenge := some [0x51], seeds := none } blankParams =
      .error .genesisPoWHash := by
  constructor
  · simp [CChainParams.RegTest, CRegTestParams_eq, zeroHashEnv, pinnedEnv]
  · simp [CChainParams.SigNet, SigNetParams_eq, zeroHashEnv, pinnedEnv]

/-- C5, amended. In all four variants, whatever the options, construction succeeds
exactly when the monetary-cap check passes and the proof-of-work hash, the block
hash and the merkle root of the genesis block equal the values pinned in that
constructor; any mismatch aborts it. -/
theorem genesis_pinned_in_every_variant (env : Env) (init : CChainParams) (sopts : SigNetOptions)
    (ropts : RegTestOptions) :
    ((∃ p, CChainParams.Main env init = .ok p) ↔ MainChecksPass env) ∧
    ((∃ p, CChainParams.TestNet env init = .ok p) ↔ TestChecksPass env) ∧
    ((∃ p, CChainParams.SigNet env sopts init = .ok p) ↔ SigNetChecksPass env) ∧
    ((∃ p, CChainParams.RegTest env ropts init = .ok p) ↔ RegTestChecksPass env) :=
  ⟨exists_ok_iff_of_cascade _ _ (CMainParams_eq env init),
    exists_ok_iff_of_cascade _ _ (CTestNetParams_eq env init),
    exists_ok_iff_of_cascade _ _ (SigNetParams_eq env sopts init),
    exists_ok_iff_of_cascade _ _ (CRegTestParams_eq env ropts init)⟩

/-- C5, witness. With collaborators that return the pinned values all four
constructions succeed. -/
theorem genesis_pinned_in_every_variant_witness :
    (∃ p, CChainParams.Main pinnedEnv blankParams = .ok p) ∧
    (∃ p, CChainParams.TestNet pinnedEnv blankParams = .ok p) ∧
    (∃ p, CChainParams.SigNet pinnedEnv { challenge := some [0x51], seeds := none } blankParams
      = .ok p) ∧
    (∃ p, CChainParams.RegTest pinnedEnv
      { version_bits_parameters := [], activation_heights := [], fastprune := false } blankParams
      = .ok p) :=
  have h := genesis_pinned_in_every_variant pinnedEnv blankParams
    { challenge := some [0x51], seeds := none }
    { version_bits_parameters := [], activation_heights := [], fastprune := false }
  ⟨h.1.mpr pinnedEnv_main, h.2.1.mpr pinnedEnv_test, h.2.2.1.mpr pinnedEnv_signet,
    h.2.2.2.mpr pinnedEnv_regtest⟩

/-! ## Regtest overrides: C6, C7 -/

/-- C6. For every regtest options bundle (the keys of `activation_heights` pairwise
distinct, as in a map) whose construction passes the collaborator checks: if
`activation_heights` maps a buried deployment to a height, the rule table reports
exactly that height for it; if the deployment is absent from the map, the rule
table reports the default, 0 for segwit and 1 for each of the others. -/
theorem regtest_buried_override (env : Env) (opts : RegTestOptions) (init : CChainParams)
    (hchecks : RegTestChecksPass env) (hkeys : (opts.activation_heights.map Prod.fst).Nodup) :
    ∃ p, CChainParams.RegTest env opts init = .ok p ∧
      (∀ d h, (d, h) ∈ opts.activation_heights → p.consensus.DeploymentHeight d = h) ∧
      (∀ d, d ∉ opts.activation_heights.map Prod.fst →
        p.consensus.DeploymentHeight d = regtestDefaultHeight d) := by
  refine ⟨CRegTestParams.result env opts init, CRegTestParams_ok env opts init hchecks, ?_, ?_⟩
  · intro d h hm
    rw [CRegTestParams.result_DeploymentHeight]
    exact activation_loop_present _ d h _ hkeys hm
  · intro d hd
    rw [CRegTestParams.result_DeploymentHeight, activation_loop_absent _ d _ hd]
    exact regtest_defaults_heights env opts init d

/-- C6, witness. With the sample options segwit is reported at 7 and CSV at 432,
and the height-in-coinbase deployment, absent from the map, at its default 1. -/
theorem regtest_buried_override_witness :
    RegTestChecksPass pinnedEnv ∧
    (sampleRegTestOptions.activation_heights.map Prod.fst).Nodup ∧
    ∃ p, CChainParams.RegTest pinnedEnv sampleRegTestOptions blankParams = .ok p ∧
      p.consensus.SegwitHeight = 7 ∧ p.consensus.CSVHeight = 432 ∧
      p.consensus.BIP34Height = 1 := by
  have hkeys : (sampleRegTestOptions.activation_heights.map Prod.fst).Nodup := by
    simp [sampleRegTestOptions]
  obtain ⟨p, hp, hpresent, habsent⟩ :=
    regtest_buried_override pinnedEnv sampleRegTestOptions blankParams pinnedEnv_regtest hkeys
  exact ⟨pinnedEnv_regtest, hkeys, p, hp,
    hpresent .DEPLOYMENT_SEGWIT 7 (by simp [sampleRegTestOptions]),
    hpresent .DEPLOYMENT_CSV 432 (by simp [sampleRegTestOptions]),
    habsent .DEPLOYMENT_HEIGHTINCB (by simp [sampleRegTestOptions])⟩

/-- C7. For every regtest options bundle (the keys of the deployment-timing map
pairwise distinct) whose construction passes the collaborator checks: a
deployment the map contains gets the supplied start time, timeout and minimum
activation height; the bit index is 28 for the test dummy and 2 for taproot
whatever the overrides; a deployment absent from the map keeps its default
parameters. -/
theorem regtest_timing_override (env : Env) (opts : RegTestOptions) (init : CChainParams)
    (hchecks : RegTestChecksPass env)
    (hkeys : (opts.version_bits_parameters.map Prod.fst).Nodup) :
    ∃ p, CChainParams.RegTest env opts init = .ok p ∧
      (∀ pos v, (pos, v) ∈ opts.version_bits_parameters →
        (p.consensus.vDeployments pos).nStartTime = v.start_time ∧
        (p.consensus.vDeployments pos).nTimeout = v.timeout ∧
        (p.consensus.vDeployments pos).min_activation_height = v.min_activation_height) ∧
      (p.consensus.vDeployments .DEPLOYMENT_TESTDUMMY).bit = 28 ∧
      (p.consensus.vDeployments .DEPLOYMENT_TAPROOT).bit = 2 ∧
      (∀ pos, pos ∉ opts.version_bits_parameters.map Prod.fst →
        p.consensus.vDeployments pos = regtestDefaultDeployment env pos) := by
  refine ⟨CRegTestParams.result env opts init, CRegTestParams_ok env opts init hchecks,
    ?_, ?_, ?_, ?_⟩
  · intro pos v hm
    rw [CRegTestParams.result_vDeployments]
    exact timing_loop_present _ pos v _ hkeys hm
  · rw [CRegTestParams.result_vDeployments, timing_loop_bit, activation_loop_vDeployments,
      regtest_defaults_deployments]
    rfl
  · rw [CRegTestParams.result_vDeployments, timing_loop_bit, activation_loop_vDeployments,
      regtest_defaults_deployments]
    rfl
  · intro pos hpos
    rw [CRegTestParams.result_vDeployments, timing_loop_absent _ pos _ hpos,
      activation_loop_vDeployments, regtest_defaults_deployments]

/-- C7, witness. With the sample options taproot gets the supplied timing and keeps
bit 2; the test dummy, absent from the map, keeps start time 0 and bit 28. -/
theorem regtest_timing_override_witness :
    RegTestChecksPass pinnedEnv ∧
    (sampleRegTestOptions.version_bits_parameters.map Prod.fst).Nodup ∧
    ∃ p, CChainParams.RegTest pinnedEnv sampleRegTestOptions blankParams = .ok p ∧
      (p.consensus.vDeployments .DEPLOYMENT_TAPROOT).nStartTime = 1000 ∧
      (p.consensus.vDeployments .DEPLOYMENT_TAPROOT).nTimeout = 2000 ∧
      (p.consensus.vDeployments .DEPLOYMENT_TAPROOT).min_activation_height = 30 ∧
      (p.consensus.vDeployments .DEPLOYMENT_TAPROOT).bit = 2 ∧
      (p.consensus.vDeployments .DEPLOYMENT_TESTDUMMY).bit = 28 ∧
      (p.consensus.vDeployments .DEPLOYMENT_TESTDUMMY).nStartTime = 0 := by
  have hkeys : (sampleRegTestOptions.version_bits_parameters.map Prod.fst).Nodup := by
    simp [sampleRegTestOptions]
  obtain ⟨p, hp, hpresent, hdummy, htaproot, habsent⟩ :=
    regtest_timing_override pinnedEnv sampleRegTestOptions blankParams pinnedEnv_regtest hkeys
  have ht := hpresent .DEPLOYMENT_TAPROOT
    { start_time := 1000, timeout := 2000, min_activation_height := 30 }
    (by simp [sampleRegTestOptions])
  have hd := habsent .DEPLOYMENT_TESTDUMMY (by simp [sampleRegTestOptions])
  exact ⟨pinnedEnv_regtest, hkeys, p, hp, ht.1, ht.2.1, ht.2.2, htaproot, hdummy, by rw [hd]; rfl⟩

/-! ## Challenge network: C8, C9, C10 -/

/-- C8. For every challenge-network options bundle whose construction passes the
collaborator checks, the message start of the profile is the first four bytes of
the hash of the challenge in force: the explicit challenge when the options carry
one, the default challenge otherwise. -/
theorem signet_magic_from_challenge (env : Env) (options : SigNetOptions)
    (init : CChainParams) (hchecks : SigNetChecksPass env) :
    ∃ p, CChainParams.SigNet env options init = .ok p ∧
      p.pchMessageStart = first4Bytes (env.HashWriter (effectiveChallenge options)) ∧
      p.pchMessageStart.length = 4 := by
  refine ⟨SigNetParams.result env options init, SigNetParams_ok env options init hchecks, ?_, ?_⟩
  · exact (SigNetParams.result_members env options init).1
  · rw [(SigNetParams.result_members env options init).1]
    rfl

/-- C8, witness. With the sample options the message start is the first four bytes
of the hash of the explicit challenge `[0x51]`. -/
theorem signet_magic_from_challenge_witness :
    SigNetChecksPass pinnedEnv ∧
    ∃ p, CChainParams.SigNet pinnedEnv sampleSigNetOptions blankParams = .ok p ∧
      p.pchMessageStart = first4Bytes (pinnedEnv.HashWriter [0x51]) := by
  obtain ⟨p, hp, hmagic, _⟩ :=
    signet_magic_from_challenge pinnedEnv sampleSigNetOptions blankParams pinnedEnv_signet
  exact ⟨pinnedEnv_signet, p, hp, hmagic⟩

/-- C9. Two challenge-network constructions whose challenges in force are equal
(explicit, or defaulted) yield the same message start, whatever their seed
options and whatever the objects they start from. -/
theorem signet_magic_depends_on_challenge_only (env : Env) (options₁ options₂ : SigNetOptions)
    (init₁ init₂ : CChainParams) (hchecks : SigNetChecksPass env)
    (hsame : effectiveChallenge options₁ = effectiveChallenge options₂) :
    ∃ p₁ p₂, CChainParams.SigNet env options₁ init₁ = .ok p₁ ∧
      CChainParams.SigNet env options₂ init₂ = .ok p₂ ∧
      p₁.pchMessageStart = p₂.pchMessageStart := by
  refine ⟨SigNetParams.result env options₁ init₁, SigNetParams.result env options₂ init₂,
    SigNetParams_ok env options₁ init₁ hchecks, SigNetParams_ok env options₂ init₂ hchecks, ?_⟩
  rw [(SigNetParams.result_members env options₁ init₁).1,
    (SigNetParams.result_members env options₂ init₂).1, hsame]

/-- C9, witness. A construction without a challenge and with seeds, and one with
the default challenge given explicitly and no seeds, have the same message start. -/
theorem signet_magic_depends_on_challenge_only_witness :
    SigNetChecksPass pinnedEnv ∧
    effectiveChallenge { challenge := none, seeds := some ["seed.example."] } =
      effectiveChallenge { challenge := some defaultSignetChallenge, seeds := none } ∧
    ∃ p₁ p₂,
      CChainParams.SigNet pinnedEnv { challenge := none, seeds := some ["seed.example."] }
        blankParams = .ok p₁ ∧
      CChainParams.SigNet pinnedEnv { challenge := some defaultSignetChallenge, seeds := none }
        (CMainParams.result pinnedEnv blankParams) = .ok p₂ ∧
      p₁.pchMessageStart = p₂.pchMessageStart :=
  ⟨pinnedEnv_signet, rfl,
    signet_magic_depends_on_challenge_only pinnedEnv
      { challenge := none, seeds := some ["seed.example."] }
      { challenge := some defaultSignetChallenge, seeds := none }
      blankParams (CMainParams.result pinnedEnv blankParams) pinnedEnv_signet rfl⟩

/-- C10. For every challenge-network options bundle whose construction passes the
collaborator checks, the construction returns a profile: its recorded challenge
is the explicit challenge when one is supplied and the default challenge
otherwise, the challenge-network flag is set, the seed list is the explicit seed
list when supplied and empty otherwise, and minimum chain work, default
assume-valid hash, both assumed sizes and the chain-activity summary are zero. -/
theorem signet_profile_members (env : Env) (options : SigNetOptions) (init : CChainParams)
    (hchecks : SigNetChecksPass env) :
    ∃ p, CChainParams.SigNet env options init = .ok p ∧
      p.consensus.signet_challenge =
        (match options.challenge with
          | some challenge => challenge
          | none => defaultSignetChallenge) ∧
      p.consensus.signet_blocks = true ∧
      p.vSeeds =
        (match options.seeds with
          | some seeds => seeds
          | none => []) ∧
      p.consensus.nMinimumChainWork = 0 ∧
      p.consensus.defaultAssumeValid = 0 ∧
      p.m_assumed_blockchain_size = 0 ∧
      p.m_assumed_chain_state_size = 0 ∧
      p.chainTxData.nTime = 0 ∧ p.chainTxData.nTxCount = 0 ∧ p.chainTxData.dTxRate = 0 := by
  obtain ⟨_, h2, h3, h4, h5, h6, h7, h8, h9⟩ := SigNetParams.result_members env options init
  refine ⟨SigNetParams.result env options init, SigNetParams_ok env options init hchecks,
    h2, h3, ?_, h5, h6, h7, h8, ?_, ?_, ?_⟩
  · rw [h4]; cases options.seeds <;> rfl
  · rw [h9]
  · rw [h9]
  · rw [h9]

/-- C10, witness. With the sample options the profile records the challenge `[0x51]`
and the seed `seed.example.`; without options it records the default challenge
and no seed. -/
theorem signet_profile_members_witness :
    SigNetChecksPass pinnedEnv ∧
    (∃ p, CChainParams.SigNet pinnedEnv sampleSigNetOptions blankParams = .ok p ∧
      p.consensus.signet_challenge = [0x51] ∧ p.vSeeds = ["seed.example."] ∧
      p.consensus.nMinimumChainWork = 0) ∧
    (∃ p, CChainParams.SigNet pinnedEnv { challenge := none, seeds := none } blankParams = .ok p ∧
      p.consensus.signet_challenge = defaultSignetChallenge ∧ p.vSeeds = [] ∧
      p.consensus.nMinimumChainWork = 0) := by
  obtain ⟨p, hp, hc, _, hs, hw, _⟩ :=
    signet_profile_members pinnedEnv sampleSigNetOptions blankParams pinnedEnv_signet
  obtain ⟨q, hq, hc', _, hs', hw', _⟩ :=
    signet_profile_members pinnedEnv { challenge := none, seeds := none } blankParams
      pinnedEnv_signet
  exact ⟨pinnedEnv_signet, ⟨p, hp, hc, hs, hw⟩, ⟨q, hq, hc', hs', hw'⟩⟩

/-! ## Checkpoints: C11 -/

/-- C11. For every profile a construction returns (every `assert` passed, the
object the constructor starts from having an empty checkpoint map), the
checkpoint heights strictly increase, and a checkpoint at height 0, if there is
one, carries the profile's own genesis hash `consensus.hashGenesisBlock`. -/
theorem checkpoints_consistent (env : Env) (init : CChainParams) (sopts : SigNetOptions)
    (ropts : RegTestOptions) (p : CChainParams) (hfresh : FreshCheckpoints init)
    (hok : CChainParams.Main env init = .ok p ∨ CChainParams.TestNet env init = .ok p ∨
      CChainParams.SigNet env sopts init = .ok p ∨ CChainParams.RegTest env ropts init = .ok p) :
    CheckpointsConsistent p := by
  rcases hok with h | h | h | h
  · obtain ⟨⟨_, _, hhash, _⟩, rfl⟩ := ok_of_cascade _ _ _ (CMainParams_eq env init) h
    refine ⟨by simp [CMainParams.result, CMainParams.bootstrap], ?_⟩
    intro hash hm
    simp only [CMainParams.result, CMainParams.bootstrap, List.mem_singleton, Prod.mk.injEq,
      true_and] at hm
    rw [hm]
    exact hhash.symm
  · obtain ⟨⟨_, _, hhash, _⟩, rfl⟩ := ok_of_cascade _ _ _ (CTestNetParams_eq env init) h
    refine ⟨by simp [CTestNetParams.result, CTestNetParams.bootstrap], ?_⟩
    intro hash hm
    simp only [CTestNetParams.result, CTestNetParams.bootstrap, List.mem_singleton,
      Prod.mk.injEq, true_and] at hm
    rw [hm]
    exact hhash.symm
  · obtain ⟨_, rfl⟩ := ok_of_cascade _ _ _ (SigNetParams_eq env sopts init) h
    have hempty : (SigNetParams.result env sopts init).checkpointData = [] := by
      rw [SigNetParams.result_checkpointData]
      exact hfresh
    refine ⟨by rw [hempty]; simp, ?_⟩
    intro hash hm
    rw [hempty] at hm
    simp at hm
  · obtain ⟨⟨_, _, hhash, _⟩, rfl⟩ := ok_of_cascade _ _ _ (CRegTestParams_eq env ropts init) h
    refine ⟨by simp [CRegTestParams.result, CRegTestParams.bootstrap], ?_⟩
    intro hash hm
    simp only [CRegTestParams.result, CRegTestParams.bootstrap, List.mem_singleton,
      Prod.mk.injEq, true_and] at hm
    rw [hm]
    exact hhash.symm

/-- C11, witness. The main-network construction with the pinned collaborators
returns a profile whose one checkpoint is at height 0, and the list is consistent. -/
theorem checkpoints_consistent_witness :
    FreshCheckpoints blankParams ∧
    CChainParams.Main pinnedEnv blankParams = .ok (CMainParams.result pinnedEnv blankParams) ∧
    (CMainParams.result pinnedEnv blankParams).checkpointData.length = 1 ∧
    CheckpointsConsistent (CMainParams.result pinnedEnv blankParams) :=
  ⟨rfl, CMainParams_ok pinnedEnv blankParams pinnedEnv_main, rfl,
    checkpoints_consistent pinnedEnv blankParams sampleSigNetOptions sampleRegTestOptions
      (CMainParams.result pinnedEnv blankParams) rfl
      (Or.inl (CMainParams_ok pinnedEnv blankParams pinnedEnv_main))⟩

/-! ## Constants of the rule table: C12 -/

/-- C12. At the `assert`s on the constants of the rule table, the subsidy halving
interval of main, test and the challenge network is 12500000 = 5^8 * 32, that of
regtest is 150 = 5^8 * 32 / 1000 * 0.012 in rational arithmetic, and the target
spacing of all four is 5 = 10 * 60 / 120; no construction is stopped by one of
these `assert`s. -/
theorem constant_checks_hold (env : Env) (init : CChainParams) (sopts : SigNetOptions)
    (ropts : RegTestOptions) (bin : List Nat) (p : CChainParams) :
    ConstantFacts (CMainParams.rules env init).consensus 12500000 (5 ^ 8 * 32) ∧
    abortedOnConstant (CChainParams.Main env init) = false ∧
    ConstantFacts (CTestNetParams.rules env init).consensus 12500000 (5 ^ 8 * 32) ∧
    abortedOnConstant (CChainParams.TestNet env init) = false ∧
    ConstantFacts (SigNetParams.rules env bin p).consensus 12500000 (5 ^ 8 * 32) ∧
    abortedOnConstant (CChainParams.SigNet env sopts init) = false ∧
    ConstantFacts (CRegTestParams.rules env init).consensus 150 (5 ^ 8 * 32 / 1000 * 0.012) ∧
    abortedOnConstant (CChainParams.RegTest env ropts init) = false := by
  refine ⟨?_, ?_, ?_, ?_, ?_, ?_, ?_, ?_⟩
  · simp only [ConstantFacts, CMainParams.rules]; norm_num
  · exact not_abortedOnConstant_of_cascade _ _ (CMainParams_eq env init)
  · simp only [ConstantFacts, CTestNetParams.rules]; norm_num
  · exact not_abortedOnConstant_of_cascade _ _ (CTestNetParams_eq env init)
  · simp only [ConstantFacts, SigNetParams.rules]; norm_num
  · exact not_abortedOnConstant_of_cascade _ _ (SigNetParams_eq env sopts init)
  · simp only [ConstantFacts, CRegTestParams.rules]; norm_num
  · exact not_abortedOnConstant_of_cascade _ _ (CRegTestParams_eq env ropts init)

/-! ## Retarget fields: C13 -/

/-- C13, what the code does. Every profile the test-network construction returns
has the averaging window 510 and the maximum adjustment down 32 assigned, but its
maximum adjustment up is the value the object had before the constructor body
ran: `CTestNetParams` never assigns it. -/
theorem testnet_leaves_nPowMaxAdjustUp (env : Env) (init p : CChainParams)
    (hok : CChainParams.TestNet env init = .ok p) :
    p.consensus.nPowAveragingWindow = 510 ∧
    p.consensus.nPowMaxAdjustDown = 32 ∧
    p.consensus.nPowMaxAdjustUp = init.consensus.nPowMaxAdjustUp := by
  obtain ⟨_, rfl⟩ := ok_of_cascade _ _ _ (CTestNetParams_eq env init) hok
  exact CTestNetParams.result_retarget env init

/-- C13, witness. Started from an object whose maximum adjustment up is -77, the
test-network construction returns a profile that still holds -77, while the
main-network construction started from the same object returns 16. -/
theorem testnet_leaves_nPowMaxAdjustUp_witness :
    CChainParams.TestNet pinnedEnv markedParams =
      .ok (CTestNetParams.result pinnedEnv markedParams) ∧
    (CTestNetParams.result pinnedEnv markedParams).consensus.nPowMaxAdjustUp = -77 ∧
    CChainParams.Main pinnedEnv markedParams = .ok (CMainParams.result pinnedEnv markedParams) ∧
    (CMainParams.result pinnedEnv markedParams).consensus.nPowMaxAdjustUp = 16 :=
  ⟨CTestNetParams_ok pinnedEnv markedParams pinnedEnv_test,
    (testnet_leaves_nPowMaxAdjustUp pinnedEnv markedParams _
      (CTestNetParams_ok pinnedEnv markedParams pinnedEnv_test)).2.2,
    CMainParams_ok pinnedEnv markedParams pinnedEnv_main, rfl⟩

/-! ## Fast pruning on regtest: C14 -/

/-- C14. For two regtest options bundles that differ only in the fast-prune flag
(and collaborators that pass the checks), the profile built with the flag set has
prune-after height 100, the one built with the flag clear has 1000, and the
former is strictly smaller. -/
theorem regtest_fastprune (env : Env) (opts : RegTestOptions) (init : CChainParams)
    (hchecks : RegTestChecksPass env) :
    ∃ pOn pOff,
      CChainParams.RegTest env { opts with fastprune := true } init = .ok pOn ∧
      CChainParams.RegTest env { opts with fastprune := false } init = .ok pOff ∧
      pOn.nPruneAfterHeight = 100 ∧
      pOff.nPruneAfterHeight = 1000 ∧
      pOn.nPruneAfterHeight < pOff.nPruneAfterHeight := by
  have hOn := CRegTestParams.result_nPruneAfterHeight env { opts with fastprune := true } init
  have hOff := CRegTestParams.result_nPruneAfterHeight env { opts with fastprune := false } init
  simp only [if_true, Bool.false_eq_true, if_false] at hOn hOff
  refine ⟨_, _, CRegTestParams_ok env _ init hchecks, CRegTestParams_ok env _ init hchecks,
    hOn, hOff, ?_⟩
  rw [hOn, hOff]
  norm_num

/-- C14, witness. The sample options with the flag set and with the flag clear give
prune-after heights 100 and 1000. -/
theorem regtest_fastprune_witness :
    RegTestChecksPass pinnedEnv ∧
    ∃ pOn pOff,
      CChainParams.RegTest pinnedEnv { sampleRegTestOptions with fastprune := true }
        blankParams = .ok pOn ∧
      CChainParams.RegTest pinnedEnv { sampleRegTestOptions with fastprune := false }
        blankParams = .ok pOff ∧
      pOn.nPruneAfterHeight = 100 ∧
      pOff.nPruneAfterHeight = 1000 ∧
      pOn.nPruneAfterHeight < pOff.nPruneAfterHeight :=
  ⟨pinnedEnv_regtest, regtest_fastprune pinnedEnv sampleRegTestOptions blankParams
    pinnedEnv_regtest⟩

/-! ## One coinbase, one merkle root: C15 -/

/-- C15. Two calls of `CreateGenesisBlock` that agree on message, output script and
reward return the same transaction list and the same merkle root, whatever their
times, nonces, difficulty bits and versions. The genesis blocks of the four
variants therefore share one merkle root, so the merkle-root check against the
literal pinned in one constructor passes exactly when the check against the same
literal in any other constructor passes. -/
theorem coinbase_independent_of_header (env : Env) (msg : List Nat) (script : CScript)
    (reward : Int) (nTime₁ nNonce₁ nBits₁ nTime₂ nNonce₂ nBits₂ : Nat) (nVersion₁ nVersion₂ : Int) :
    (CreateGenesisBlock env msg script nTime₁ nNonce₁ nBits₁ nVersion₁ reward).vtx =
      (CreateGenesisBlock env msg script nTime₂ nNonce₂ nBits₂ nVersion₂ reward).vtx ∧
    (CreateGenesisBlock env msg script nTime₁ nNonce₁ nBits₁ nVersion₁ reward).hashMerkleRoot =
      (CreateGenesisBlock env msg script nTime₂ nNonce₂ nBits₂ nVersion₂ reward).hashMerkleRoot ∧
    (mainGenesis env).vtx = (testGenesis env).vtx ∧
    (mainGenesis env).vtx = (signetGenesis env).vtx ∧
    (mainGenesis env).vtx = (regtestGenesis env).vtx ∧
    (mainGenesis env).hashMerkleRoot = (testGenesis env).hashMerkleRoot ∧
    (mainGenesis env).hashMerkleRoot = (signetGenesis env).hashMerkleRoot ∧
    (mainGenesis env).hashMerkleRoot = (regtestGenesis env).hashMerkleRoot ∧
    ((mainGenesis env).hashMerkleRoot =
        0x7677ce2a579cb0411d1c9e6b1e9072b8f537f1e59cb387dacac2daac56e150b0 ↔
      (testGenesis env).hashMerkleRoot =
        0x7677ce2a579cb0411d1c9e6b1e9072b8f537f1e59cb387dacac2daac56e150b0) ∧
    ((mainGenesis env).hashMerkleRoot =
        0x7677ce2a579cb0411d1c9e6b1e9072b8f537f1e59cb387dacac2daac56e150b0 ↔
      (signetGenesis env).hashMerkleRoot =
        0x7677ce2a579cb0411d1c9e6b1e9072b8f537f1e59cb387dacac2daac56e150b0) ∧
    ((mainGenesis env).hashMerkleRoot =
        0x7677ce2a579cb0411d1c9e6b1e9072b8f537f1e59cb387dacac2daac56e150b0 ↔
      (regtestGenesis env).hashMerkleRoot =
        0x7677ce2a579cb0411d1c9e6b1e9072b8f537f1e59cb387dacac2daac56e150b0) := by
  have hm : (mainGenesis env).hashMerkleRoot = (testGenesis env).hashMerkleRoot := by
    rw [mainGenesis_eq, testGenesis_eq, CreateGenesisBlock_eq, CreateGenesisBlock_eq]
  have hs : (mainGenesis env).hashMerkleRoot = (signetGenesis env).hashMerkleRoot := by
    rw [mainGenesis_eq, signetGenesis_eq, CreateGenesisBlock_eq, CreateGenesisBlock_eq]
  have hr : (mainGenesis env).hashMerkleRoot = (regtestGenesis env).hashMerkleRoot := by
    rw [mainGenesis_eq, regtestGenesis_eq, CreateGenesisBlock_eq, CreateGenesisBlock_eq]
  refine ⟨?_, ?_, ?_, ?_, ?_, hm, hs, hr, by rw [hm], by rw [hs], by rw [hr]⟩
  · rw [CreateGenesisBlock_eq, CreateGenesisBlock_eq]
  · rw [CreateGenesisBlock_eq, CreateGenesisBlock_eq]
  · rw [mainGenesis_eq, testGenesis_eq, CreateGenesisBlock_eq, CreateGenesisBlock_eq]
  · rw [mainGenesis_eq, signetGenesis_eq, CreateGenesisBlock_eq, CreateGenesisBlock_eq]
  · rw [mainGenesis_eq, regtestGenesis_eq, CreateGenesisBlock_eq, CreateGenesisBlock_eq]

/-! ## Genesis difficulty below the ceiling: C16 -/

/-- C16. In the profile each of the four constructions returns (for each variant:
collaborators that pass its checks), the target decoded from the compact
difficulty bits of the genesis block is not zero and not above the proof-of-work
ceiling: 0x1f3fffff against 2^246 - 1 for main and test, 0x1f7fffff against
2^247 - 1 for the challenge network, 0x200f0f0f against 0x0f0f..0f for regtest. -/
theorem genesis_target_within_powLimit (env : Env) (init : CChainParams)
    (sopts : SigNetOptions) (ropts : RegTestOptions) :
    (MainChecksPass env → ∃ p, CChainParams.Main env init = .ok p ∧
      CompactWithinLimit p 0x1f3fffff (2 ^ 246 - 1)) ∧
    (TestChecksPass env → ∃ p, CChainParams.TestNet env init = .ok p ∧
      CompactWithinLimit p 0x1f3fffff (2 ^ 246 - 1)) ∧
    (SigNetChecksPass env → ∃ p, CChainParams.SigNet env sopts init = .ok p ∧
      CompactWithinLimit p 0x1f7fffff (2 ^ 247 - 1)) ∧
    (RegTestChecksPass env → ∃ p, CChainParams.RegTest env ropts init = .ok p ∧
      CompactWithinLimit p 0x200f0f0f
        0x0f0f0f0f0f0f0f0f0f0f0f0f0f0f0f0f0f0f0f0f0f0f0f0f0f0f0f0f0f0f0f0f) := by
  refine ⟨fun h => ⟨_, CMainParams_ok env init h, ?_⟩,
    fun h => ⟨_, CTestNetParams_ok env init h, ?_⟩,
    fun h => ⟨_, SigNetParams_ok env sopts init h, ?_⟩,
    fun h => ⟨_, CRegTestParams_ok env ropts init h, ?_⟩⟩
  · have hg : (CMainParams.result env init).genesis.nBits = 0x1f3fffff := by
      show (mainGenesis env).nBits = _
      rw [mainGenesis_eq, CreateGenesisBlock_eq]
    have hp : (CMainParams.result env init).consensus.powLimit =
        0x003fffffffffffffffffffffffffffffffffffffffffffffffffffffffffffff := rfl
    simp only [CompactWithinLimit, hg, hp, SetCompact]
    norm_num
  · have hg : (CTestNetParams.result env init).genesis.nBits = 0x1f3fffff := by
      show (testGenesis env).nBits = _
      rw [testGenesis_eq, CreateGenesisBlock_eq]
    have hp : (CTestNetParams.result env init).consensus.powLimit =
        0x003fffffffffffffffffffffffffffffffffffffffffffffffffffffffffffff := rfl
    simp only [CompactWithinLimit, hg, hp, SetCompact]
    norm_num
  · have hg : (SigNetParams.result env sopts init).genesis.nBits = 0x1f7fffff := by
      rw [(SigNetParams.result_ceiling_and_genesis env sopts init).2, signetGenesis_eq,
        CreateGenesisBlock_eq]
    have hp := (SigNetParams.result_ceiling_and_genesis env sopts init).1
    simp only [CompactWithinLimit, hg, hp, SetCompact]
    norm_num
  · have hg : (CRegTestParams.result env ropts init).genesis.nBits = 0x200f0f0f := by
      show (regtestGenesis env).nBits = _
      rw [regtestGenesis_eq, CreateGenesisBlock_eq]
    have hp := CRegTestParams.result_ceiling env ropts init
    simp only [CompactWithinLimit, hg, hp, SetCompact]
    norm_num

/-- C16, witness. With the pinned collaborators all four constructions return a
profile whose genesis target lies within the ceiling. -/
theorem genesis_target_within_powLimit_witness :
    (∃ p, CChainParams.Main pinnedEnv blankParams = .ok p ∧
      CompactWithinLimit p 0x1f3fffff (2 ^ 246 - 1)) ∧
    (∃ p, CChainParams.TestNet pinnedEnv blankParams = .ok p ∧
      CompactWithinLimit p 0x1f3fffff (2 ^ 246 - 1)) ∧
    (∃ p, CChainParams.SigNet pinnedEnv sampleSigNetOptions blankParams = .ok p ∧
      CompactWithinLimit p 0x1f7fffff (2 ^ 247 - 1)) ∧
    (∃ p, CChainParams.RegTest pinnedEnv sampleRegTestOptions blankParams = .ok p ∧
      CompactWithinLimit p 0x200f0f0f
        0x0f0f0f0f0f0f0f0f0f0f0f0f0f0f0f0f0f0f0f0f0f0f0f0f0f0f0f0f0f0f0f0f) :=
  have h := genesis_target_within_powLimit pinnedEnv blankParams sampleSigNetOptions
    sampleRegTestOptions
  ⟨h.1 pinnedEnv_main, h.2.1 pinnedEnv_test, h.2.2.1 pinnedEnv_signet,
    h.2.2.2 pinnedEnv_regtest⟩

end Umami
